import Mathlib

/-!
Verification of the RF propagation core of the lora-mesh-planner repository.

The JavaScript source computes with IEEE-754 doubles.  We model a JS number
as an exact real number together with the two non-finite behaviours the code
can actually reach on real inputs: NaN (e.g. `0/0`, `Math.sqrt` of a negative
number, `Math.log10` of a negative number) and the two signed infinities
(e.g. `x/0` for `x ≠ 0`, `Math.log10(0)`, the literal `Infinity`).
Rounding is idealised away (every arithmetic operation is exact), and the
distinction between `+0` and `-0` is conflated: the only zero is the real
number `0`, and `x / 0` for `x > 0` gives `+Infinity` as it does for a JS
`+0` divisor.  Comparison operators follow JS semantics: any comparison
with NaN is false, and `Math.min` / `Math.max` return NaN when either
argument is NaN.
-/

set_option maxRecDepth 8000

noncomputable section

/-- A JavaScript number: an exact real, NaN, or a signed infinity
(`inf true` is `+Infinity`, `inf false` is `-Infinity`). -/
inductive JSVal where
  | num (x : ℝ)
  | nan
  | inf (pos : Bool)

open JSVal

/-- JS addition. -/
def jadd : JSVal → JSVal → JSVal
  | nan, _ => nan
  | _, nan => nan
  | num a, num b => num (a + b)
  | inf s, num _ => inf s
  | num _, inf s => inf s
  | inf s, inf t => if s = t then inf s else nan

/-- JS subtraction. -/
def jsub : JSVal → JSVal → JSVal
  | nan, _ => nan
  | _, nan => nan
  | num a, num b => num (a - b)
  | inf s, num _ => inf s
  | num _, inf s => inf (!s)
  | inf s, inf t => if s = t then nan else inf s

/-- JS multiplication (`Infinity * 0` is NaN). -/
def jmul : JSVal → JSVal → JSVal
  | nan, _ => nan
  | _, nan => nan
  | num a, num b => num (a * b)
  | inf s, num x => if x = 0 then nan else if 0 < x then inf s else inf (!s)
  | num x, inf s => if x = 0 then nan else if 0 < x then inf s else inf (!s)
  | inf s, inf t => inf (s = t)

/-- JS division (`0/0` is NaN, `x/0` is a signed infinity for `x ≠ 0`;
the sign of a zero divisor is conflated to `+0`). -/
def jdiv : JSVal → JSVal → JSVal
  | nan, _ => nan
  | _, nan => nan
  | num a, num b =>
      if b = 0 then (if a = 0 then nan else if 0 < a then inf true else inf false)
      else num (a / b)
  | num _, inf _ => num 0
  | inf s, num x => if 0 ≤ x then inf s else inf (!s)
  | inf _, inf _ => nan

/-- JS `Math.sqrt` (NaN on negative arguments and on `-Infinity`). -/
def jsqrt : JSVal → JSVal
  | num x => if x < 0 then nan else num (Real.sqrt x)
  | nan => nan
  | inf s => if s then inf true else nan

/-- JS `Math.abs`. -/
def jabs : JSVal → JSVal
  | num x => num |x|
  | nan => nan
  | inf _ => inf true

/-- JS `Math.sin` (NaN on the infinities). -/
def jsin : JSVal → JSVal
  | num x => num (Real.sin x)
  | _ => nan

/-- JS `Math.cos` (NaN on the infinities). -/
def jcos : JSVal → JSVal
  | num x => num (Real.cos x)
  | _ => nan

/-- JS `Math.exp`. -/
def jexp : JSVal → JSVal
  | num x => num (Real.exp x)
  | nan => nan
  | inf s => if s then inf true else num 0

/-- JS `Math.log10` (`-Infinity` at `0`, NaN on negatives and `-Infinity`). -/
def jlog10 : JSVal → JSVal
  | num x => if 0 < x then num (Real.logb 10 x) else if x = 0 then inf false else nan
  | nan => nan
  | inf s => if s then inf true else nan

/-- The mathematical two-argument arctangent on the reals, with
`atan2R 0 0 = 0` matching JS `Math.atan2(+0, +0)`. -/
def atan2R (y x : ℝ) : ℝ :=
  if 0 < x then Real.arctan (y / x)
  else if x < 0 then
    (if 0 ≤ y then Real.arctan (y / x) + Real.pi else Real.arctan (y / x) - Real.pi)
  else
    (if 0 < y then Real.pi / 2 else if y < 0 then -(Real.pi / 2) else 0)

/-- JS `Math.atan2`, including its table for infinite arguments. -/
def jatan2 : JSVal → JSVal → JSVal
  | nan, _ => nan
  | _, nan => nan
  | num y, num x => num (atan2R y x)
  | inf s, num _ => num (if s then Real.pi / 2 else -(Real.pi / 2))
  | num y, inf t =>
      if t then num 0 else num (if 0 ≤ y then Real.pi else -Real.pi)
  | inf s, inf t =>
      num ((if s then (1 : ℝ) else -1) * (if t then Real.pi / 4 else 3 * Real.pi / 4))

/-- JS `Math.pow(10, y)`. -/
def jpow10 : JSVal → JSVal
  | num y => num ((10 : ℝ) ^ y)
  | nan => nan
  | inf s => if s then inf true else num 0

/-- JS `<` (false whenever NaN is involved). -/
def jlt : JSVal → JSVal → Bool
  | nan, _ => false
  | _, nan => false
  | num a, num b => decide (a < b)
  | inf s, inf t => !s && t
  | inf s, num _ => !s
  | num _, inf t => t

/-- JS `<=` (false whenever NaN is involved). -/
def jle : JSVal → JSVal → Bool
  | nan, _ => false
  | _, nan => false
  | num a, num b => decide (a ≤ b)
  | inf s, inf t => !s || t
  | inf s, num _ => !s
  | num _, inf t => t

/-- JS `>`. -/
def jgt (a b : JSVal) : Bool := jlt b a

/-- JS `>=`. -/
def jge (a b : JSVal) : Bool := jle b a

/-- JS strict equality `===` on numbers (NaN equals nothing). -/
def jeq : JSVal → JSVal → Bool
  | num a, num b => decide (a = b)
  | inf s, inf t => s == t
  | _, _ => false

/-- JS `Math.min` of two arguments (NaN-propagating). -/
def jmin : JSVal → JSVal → JSVal
  | nan, _ => nan
  | _, nan => nan
  | num a, num b => num (min a b)
  | inf true, b => b
  | num a, inf true => num a
  | inf false, _ => inf false
  | num _, inf false => inf false

/-- JS `Math.max` of two arguments (NaN-propagating). -/
def jmax : JSVal → JSVal → JSVal
  | nan, _ => nan
  | _, nan => nan
  | num a, num b => num (max a b)
  | inf false, b => b
  | num a, inf false => num a
  | inf true, _ => inf true
  | num _, inf true => inf true

/-- One sample of a terrain profile: distance from the start of the path and
ground elevation.  The JS objects also carry `lat`/`lng` fields, which no
analysed computation reads; they are omitted.  The unit of `distance` is
whatever the caller uses (km in `rf-utils.js`, meters in the
`RFCalculator` call sites), matching the source's convention. -/
structure Sample where
  distance : ℝ
  elevation : ℝ

instance : Inhabited Sample := ⟨⟨0, 0⟩⟩

/-- A geographic coordinate in degrees. -/
structure GeoPoint where
  lat : ℝ
  lng : ℝ

namespace RFUtils

/-- Carrier frequency, `this.frequency` in the `RFUtils` constructor
(src/src/js/rf/rf-utils.js). -/
def frequency : ℝ := 915e6

/-- Wavelength `299792458 / this.frequency` from the `RFUtils` constructor. -/
def wavelength : ℝ := 299792458 / frequency

/-- Earth radius in meters, `this.earthRadius`. -/
def earthRadius : ℝ := 6371000

/-- Model of `RFUtils.calculateFresnelZoneRadius(d1, d2, n = 1)`: first Fresnel zone
radius; `d1`, `d2` in km, result in meters.  `Math.sqrt` can go NaN when a
caller passes a point outside the path (negative `d2`). -/
def calculateFresnelZoneRadius (d1 d2 : ℝ) (n : ℝ := 1) : JSVal :=
  let d1m := d1 * 1000
  let d2m := d2 * 1000
  jsqrt (jdiv (num (n * wavelength * d1m * d2m)) (num (d1m + d2m)))

/-- Model of `RFUtils.calculateEarthCurvature(distance, fraction = 0.5)`: Earth bulge
in meters.  The `fraction` argument is a `JSVal` because
`analyzeFresnelClearance` passes `d1 / totalDistance`, which is NaN when
`totalDistance` is 0. -/
def calculateEarthCurvature (distance : ℝ) (fraction : JSVal) : JSVal :=
  let distanceMeters : ℝ := distance * 1000
  let d1 := jmul (num distanceMeters) fraction
  let d2 := jmul (num distanceMeters) (jsub (num 1) fraction)
  jdiv (jmul d1 d2) (num (2 * earthRadius))

/-- Model of `RFUtils.calculateFSPL(distance, frequency)`: free-space path loss,
`20 log10(d_km) + 20 log10(f_MHz) + 32.44`.  No domain guard exists in the
source, so `distance = 0` gives `-Infinity` and negative distances give NaN. -/
def calculateFSPL (distance : ℝ) (freqArg : ℝ := frequency) : JSVal :=
  jadd (jadd (jmul (num 20) (jlog10 (num distance)))
             (jmul (num 20) (jlog10 (num (freqArg / 1e6)))))
       (num 32.44)

/-- The Fresnel-Kirchhoff parameter `v = h * sqrt(2 (d1m + d2m) / (λ d1m d2m))`
as a real number (the value `calculateKnifeEdgeLoss` computes when
`d1, d2 > 0`). -/
def fresnelV (h d1 d2 : ℝ) : ℝ :=
  h * Real.sqrt (2 * (d1 * 1000 + d2 * 1000) / (wavelength * (d1 * 1000) * (d2 * 1000)))

/-- Model of `RFUtils.calculateKnifeEdgeLoss(h, d1, d2)`: piecewise knife-edge
diffraction approximation.  Note the `v > 2.4` branch takes
`Math.sqrt(0.1184 - (0.38 - 0.1 v)^2)` with no clamp on the radicand. -/
def calculateKnifeEdgeLoss (h d1 d2 : ℝ) : JSVal :=
  let d1m := d1 * 1000
  let d2m := d2 * 1000
  let v := jmul (num h) (jsqrt (jdiv (num (2 * (d1m + d2m))) (num (wavelength * d1m * d2m))))
  let diffractionLoss :=
    if jle v (num (-2.4)) then num 0
    else if jle v (num 0) then
      jmul (num 20) (jlog10 (jsub (num 0.5) (jmul (num 0.62) v)))
    else if jle v (num 2.4) then
      jmul (num 20) (jlog10 (jmul (num 0.5) (jexp (jmul (num (-0.95)) v))))
    else
      jmul (num 20) (jlog10 (jsub (num 0.4)
        (jsqrt (jsub (num 0.1184)
          (jmul (jsub (num 0.38) (jmul (num 0.1) v))
                (jsub (num 0.38) (jmul (num 0.1) v)))))))
  jmax (num 0) diffractionLoss

/-- Model of `RFUtils.getRequiredFresnelClearance(distance)`: 0.6 below 5 km, 0.7
below 15 km, 0.8 beyond. -/
def getRequiredFresnelClearance (distance : ℝ) : ℝ :=
  if distance < 5 then 0.6 else if distance < 15 then 0.7 else 0.8

/-- One obstruction record pushed by `analyzeFresnelClearance`. -/
structure Obstruction where
  distance : ℝ
  elevation : ℝ
  requiredHeight : JSVal
  obstruction : JSVal
  fresnelRadius : JSVal

/-- The `requiredHeight` computed for one interior sample of the
`analyzeFresnelClearance` loop: interpolated line-of-sight height, plus
Earth curvature, plus the required fraction of the Fresnel radius. -/
def requiredHeightAt (txElevation rxElevation totalDistance clearancePct : ℝ)
    (p : Sample) : JSVal :=
  let d1 := p.distance
  let d2 := totalDistance - p.distance
  let losHeight := jadd (num txElevation)
    (jmul (num (rxElevation - txElevation)) (jdiv (num d1) (num totalDistance)))
  let earthCurv := calculateEarthCurvature totalDistance (jdiv (num d1) (num totalDistance))
  let fresnelRad := calculateFresnelZoneRadius d1 d2
  jadd (jadd losHeight earthCurv) (jmul fresnelRad (num clearancePct))

/-- The signed clearance `terrainHeight - requiredHeight` for one interior
sample (positive means the terrain blocks the path). -/
def clearanceAt (txElevation rxElevation totalDistance clearancePct : ℝ)
    (p : Sample) : JSVal :=
  jsub (num p.elevation) (requiredHeightAt txElevation rxElevation totalDistance clearancePct p)

/-- The mutable state of the `analyzeFresnelClearance` loop. -/
structure ClearanceState where
  hasAdequateClearance : Bool
  minClearance : JSVal
  obstructions : List Obstruction

/-- One iteration of the `analyzeFresnelClearance` loop over an interior
sample of the profile. -/
def clearanceStep (txElevation rxElevation totalDistance clearancePct : ℝ)
    (st : ClearanceState) (p : Sample) : ClearanceState :=
  let fres := calculateFresnelZoneRadius p.distance (totalDistance - p.distance)
  let req := requiredHeightAt txElevation rxElevation totalDistance clearancePct p
  let clearance := clearanceAt txElevation rxElevation totalDistance clearancePct p
  let st1 :=
    if jgt clearance (num 0) then
      { st with hasAdequateClearance := false,
                obstructions := st.obstructions ++
                  [⟨p.distance, p.elevation, req, clearance, fres⟩] }
    else st
  { st1 with minClearance := jmin st1.minClearance (jabs clearance) }

/-- The error tag of the degenerate-profile early return (the JS object gets
an `error: 'Invalid path profile'` string field). -/
inductive AnalysisError where
  | invalidPathProfile

/-- The result object of `analyzeFresnelClearance`. -/
structure ClearanceResult where
  hasAdequateClearance : Bool
  minClearance : JSVal
  obstructions : List Obstruction
  requiredClearancePercent : ℝ
  error : Option AnalysisError

/-- Model of `RFUtils.analyzeFresnelClearance(pathProfile, txHeight, rxHeight,
totalDistance)` (src/src/js/rf/rf-utils.js lines 150-202).  The JS null
check on `pathProfile` is subsumed by the list model; profiles with fewer
than 2 samples take the early error return.  `minClearance` starts at the
JS literal `Infinity`. -/
def analyzeFresnelClearance (pathProfile : List Sample)
    (txHeight rxHeight totalDistance : ℝ) : ClearanceResult :=
  let pct := getRequiredFresnelClearance totalDistance
  if pathProfile.length < 2 then
    ⟨false, inf true, [], pct, some .invalidPathProfile⟩
  else
    let txElevation := pathProfile.headI.elevation + txHeight
    let rxElevation := (pathProfile.getLastD default).elevation + rxHeight
    let interior := (pathProfile.drop 1).dropLast
    let st := interior.foldl (clearanceStep txElevation rxElevation totalDistance pct)
      ⟨true, inf true, []⟩
    ⟨st.hasAdequateClearance, st.minClearance, st.obstructions, pct, none⟩

end RFUtils

namespace LinkBudgetCalculator

/-- Model of `LinkBudgetCalculator.calculateReliability(linkMargin)` from the bundled
link-budget module (src/src/js/rf/rf-utils.js, second file, lines 683-688).
The argument is a finite link margin in dB. -/
def calculateReliability (linkMargin : ℝ) : ℝ :=
  if linkMargin < -10 then 0
  else if linkMargin < 0 then 50 + (linkMargin + 10) * 5
  else if linkMargin < 20 then 90 + linkMargin * 0.5
  else 99.9

end LinkBudgetCalculator

/-- Modelled from the spec's words for the refinement comparison of claim C3:
the piecewise reliability curve said to be returned, written exactly as the
specification states it (0 below -10; `50 + (margin+10)*5` on [-10, 0);
`90 + margin*0.5` on [0, 20); 99.9 at and above 20). -/
def reliabilitySpec (m : ℝ) : ℝ :=
  if m < -10 then 0
  else if -10 ≤ m ∧ m < 0 then 50 + (m + 10) * 5
  else if 0 ≤ m ∧ m < 20 then 90 + m * 0.5
  else 99.9

namespace RFCalculator

/-- Model of `this.frequency` of the `RFCalculator` class (src/unnamed/part_003). -/
def frequency : ℝ := 915e6

/-- Model of `this.c`, the speed of light. -/
def cLight : ℝ := 299792458

/-- Model of `this.antennaHeight`: 6 feet in meters. -/
def antennaHeight : ℝ := 1.83

/-- Model of `this.antennaGain` in dBi. -/
def antennaGain : ℝ := 5

/-- Model of `this.receiverSensitivity` in dBm. -/
def receiverSensitivity : ℝ := -137

/-- Model of `this.earthRadius` in meters. -/
def earthRadius : ℝ := 6371000

/-- The wavelength `this.c / this.frequency` recomputed inside several
methods. -/
def wavelength : ℝ := cLight / frequency

/-- Model of `RFCalculator.freeSpacePathLoss(distance)`: `20 log10(4 π d / λ)`,
distance in meters. -/
def freeSpacePathLoss (distance : ℝ) : JSVal :=
  jmul (num 20) (jlog10 (num (4 * Real.pi * distance / wavelength)))

/-- Model of `RFCalculator.fresnelRadius(totalDistance, distanceFromTx)`, all in
meters. -/
def fresnelRadius (totalDistance distanceFromTx : ℝ) : JSVal :=
  jsqrt (jdiv (num (wavelength * distanceFromTx * (totalDistance - distanceFromTx)))
              (num totalDistance))

/-- Model of `RFCalculator.earthCurvature(distance, positionRatio)`.  The ratio is a
`JSVal` because `analyzeTerrainProfile` passes `point.distance /
totalDistance`, NaN when `totalDistance` is 0. -/
def earthCurvature (distance : ℝ) (posFrac : JSVal) : JSVal :=
  jdiv (jmul (jmul (num distance) posFrac) (jmul (num distance) (jsub (num 1) posFrac)))
       (num (2 * earthRadius))

/-- The result object of `RFCalculator.analyzeTerrainProfile`. -/
structure TerrainAnalysis where
  clearance : JSVal
  obstruction : JSVal
  minClearance : JSVal

/-- The curvature-adjusted line-of-sight height at one interior sample of
the `analyzeTerrainProfile` loop.  Note this variant SUBTRACTS the Earth
curvature, where `RFUtils.analyzeFresnelClearance` adds it. -/
def adjustedLosAt (startElevation endElevation totalDistance : ℝ) (p : Sample) : JSVal :=
  let posFrac := jdiv (num p.distance) (num totalDistance)
  jsub (jadd (num startElevation) (jmul (num (endElevation - startElevation)) posFrac))
       (earthCurvature totalDistance posFrac)

/-- The mutable state of the `analyzeTerrainProfile` loop: JS
`minClearanceRatio` (starts `Infinity`) and `maxObstruction` (starts 0). -/
structure ProfileState where
  minClearFrac : JSVal
  maxObstruction : JSVal

/-- One iteration of the `analyzeTerrainProfile` loop over an interior
sample. -/
def profileStep (startElevation endElevation totalDistance : ℝ)
    (st : ProfileState) (p : Sample) : ProfileState :=
  let fres := fresnelRadius totalDistance p.distance
  let adjusted := adjustedLosAt startElevation endElevation totalDistance p
  let required := jadd adjusted (jmul (num 0.6) fres)
  let clearanceHeight := jsub adjusted (num p.elevation)
  let clearFrac := jdiv clearanceHeight fres
  let newMin := jmin st.minClearFrac clearFrac
  let newObs :=
    if jgt (num p.elevation) required then
      jmax st.maxObstruction (jdiv (jsub (num p.elevation) required) fres)
    else st.maxObstruction
  ⟨newMin, newObs⟩

/-- Model of `RFCalculator.analyzeTerrainProfile(elevationProfile, totalDistance,
txHeight, rxHeight)` (src/unnamed/part_003 lines 254-301).  For profiles
shorter than 2 samples it returns `{clearance: 1.0, obstruction: 0,
minClearance: Infinity}` - a fully-clear result, not an error. -/
def analyzeTerrainProfile (elevationProfile : List Sample) (totalDistance : ℝ)
    (txHeight rxHeight : ℝ) : TerrainAnalysis :=
  if elevationProfile.length < 2 then ⟨num 1.0, num 0, inf true⟩
  else
    let startElevation := elevationProfile.headI.elevation + txHeight
    let endElevation := (elevationProfile.getLastD default).elevation + rxHeight
    let interior := (elevationProfile.drop 1).dropLast
    let st := interior.foldl (profileStep startElevation endElevation totalDistance)
      ⟨inf true, num 0⟩
    ⟨jmax (num 0) st.minClearFrac, st.maxObstruction, st.minClearFrac⟩

/-- The quality strings `calculateLinkBudget` can assign, plus the
`excellent` value for which the UI layer (src/unnamed/part_002) defines a
color but which this function never produces. -/
inductive LinkQuality where
  | poor
  | marginal
  | good
  | excellent

/-- The result object of `RFCalculator.calculateLinkBudget`. -/
structure LinkBudgetResult where
  txPowerDbm : JSVal
  pathLoss : JSVal
  obstructionLoss : JSVal
  fresnelLoss : JSVal
  receivedPower : JSVal
  linkMargin : JSVal
  quality : LinkQuality
  distanceKm : ℝ

/-- Model of `RFCalculator.calculateLinkBudget(txPower, rxPower, distance,
terrainAnalysis)` (src/unnamed/part_003 lines 311-357).  `rxPower` is
accepted and ignored, as in the source.  The source guards the
obstruction loss twice with the same `> 0` test (an outer
`terrainAnalysis.obstruction > 0` and an inner `v > 0` on the copy `v`);
one test is kept since they are identical. -/
def calculateLinkBudget (txPower rxPower distance : ℝ)
    (terrainAnalysis : TerrainAnalysis) : LinkBudgetResult :=
  let txPowerDbm := jmul (num 10) (jlog10 (num (txPower * 1000)))
  let pathLoss := freeSpacePathLoss distance
  let obstructionLoss :=
    if jgt terrainAnalysis.obstruction (num 0) then
      jmul (num 20) (jlog10 (jsqrt (jmul (num (2 * Real.pi)) terrainAnalysis.obstruction)))
    else num 0
  let fresnelLoss :=
    if jlt terrainAnalysis.clearance (num 1.0) then
      jmul (num 6) (jsub (num 1) terrainAnalysis.clearance)
    else num 0
  let receivedPower :=
    jsub (jsub (jsub (jadd txPowerDbm (num (2 * antennaGain))) pathLoss) obstructionLoss)
      fresnelLoss
  let linkMargin := jsub receivedPower (num receiverSensitivity)
  let quality :=
    if jge linkMargin (num 20) then LinkQuality.good
    else if jge linkMargin (num 10) then LinkQuality.marginal
    else LinkQuality.poor
  ⟨txPowerDbm, pathLoss, obstructionLoss, fresnelLoss, receivedPower, linkMargin,
    quality, distance / 1000⟩

/-- The terrain argument of `estimateCoverageRadius` (a JS string; the
factor lookup falls back to 0.7 for unknown strings, which the three-value
type makes unreachable). -/
inductive TerrainKind where
  | flat
  | rolling
  | mountainous

/-- The `terrainFactors` lookup table of `estimateCoverageRadius`. -/
def terrainFactor : TerrainKind → ℝ
  | .flat => 1.0
  | .rolling => 0.7
  | .mountainous => 0.4

/-- Model of `RFCalculator.estimateCoverageRadius(power, terrain)` (src/unnamed/
part_003 lines 365-384): closed-form maximum range in meters used by the
part_004 coverage variant to fill in timed-out bearings. -/
def estimateCoverageRadius (power : ℝ) (terrain : TerrainKind) : JSVal :=
  let txPowerDbm := jmul (num 10) (jlog10 (num (power * 1000)))
  let linkBudget := jsub (jadd txPowerDbm (num (2 * antennaGain))) (num receiverSensitivity)
  let maxPathLoss := jsub linkBudget (num 20)
  let maxDistance := jdiv (jmul (num wavelength) (jpow10 (jdiv maxPathLoss (num 20))))
    (num (4 * Real.pi))
  jmul maxDistance (num (terrainFactor terrain))

end RFCalculator

namespace ElevationService

/-- The body of the sampling loop of `ElevationService.generatePathPoints`
(src/unnamed/part_000 lines 110-157) for loop index `i`: the fractions 0
and 1 are special-cased by strict equality, every other index runs the
spherical interpolation, whose coefficients divide by `Math.sin(c)`. -/
def pathPointAt (start finish : GeoPoint) (c : JSVal) (samples i : ℕ) : JSVal × JSVal :=
  let lat1 := start.lat * Real.pi / 180
  let lon1 := start.lng * Real.pi / 180
  let lat2 := finish.lat * Real.pi / 180
  let lon2 := finish.lng * Real.pi / 180
  let fraction := jdiv (num (i : ℝ)) (num ((samples : ℝ) - 1))
  if jeq fraction (num 0) then (num start.lat, num start.lng)
  else if jeq fraction (num 1) then (num finish.lat, num finish.lng)
  else
    let A := jdiv (jsin (jmul (jsub (num 1) fraction) c)) (jsin c)
    let B := jdiv (jsin (jmul fraction c)) (jsin c)
    let x := jadd (jmul (jmul A (num (Real.cos lat1))) (num (Real.cos lon1)))
                  (jmul (jmul B (num (Real.cos lat2))) (num (Real.cos lon2)))
    let y := jadd (jmul (jmul A (num (Real.cos lat1))) (num (Real.sin lon1)))
                  (jmul (jmul B (num (Real.cos lat2))) (num (Real.sin lon2)))
    let z := jadd (jmul A (num (Real.sin lat1))) (jmul B (num (Real.sin lat2)))
    let latv := jatan2 z (jsqrt (jadd (jmul x x) (jmul y y)))
    let lonv := jatan2 y x
    (jdiv (jmul latv (num 180)) (num Real.pi), jdiv (jmul lonv (num 180)) (num Real.pi))

/-- Model of `ElevationService.generatePathPoints(start, end, samples)`: the list of
(lat, lng) sample coordinates in degrees, as JS values since the
interpolation can produce NaN.  The angular distance `c` is the haversine
central angle; the unused local `totalDistance = R * c` of the source is
omitted. -/
def generatePathPoints (start finish : GeoPoint) (samples : ℕ) : List (JSVal × JSVal) :=
  let lat1 := start.lat * Real.pi / 180
  let lon1 := start.lng * Real.pi / 180
  let lat2 := finish.lat * Real.pi / 180
  let lon2 := finish.lng * Real.pi / 180
  let dLat := lat2 - lat1
  let dLon := lon2 - lon1
  let a := Real.sin (dLat / 2) * Real.sin (dLat / 2) +
    Real.cos lat1 * Real.cos lat2 * Real.sin (dLon / 2) * Real.sin (dLon / 2)
  let c := jmul (num 2) (jatan2 (jsqrt (num a)) (jsqrt (num (1 - a))))
  (List.range samples).map (pathPointAt start finish c samples)

end ElevationService

namespace CoverageApi

/-- Fuel-bounded model of the JS loop `for (let angle = 0; angle < 360;
angle += resolution) angles.push(angle)` of `generateCoveragePolygon`
(src/api/coverage.js line 22).  A fuel of 100 covers every resolution
above 3.6 degrees, in particular the whole validated range of 5 to 90
degrees; the source loop does not terminate for resolution 0 or below,
which the handler rejects. -/
def anglesLoop (resolution : ℝ) : ℝ → ℕ → List ℝ
  | _, 0 => []
  | angle, fuel + 1 =>
      if angle < 360 then angle :: anglesLoop resolution (angle + resolution) fuel else []

/-- The bearing list marched by `generateCoveragePolygon` in
src/api/coverage.js for a given resolution. -/
def coverageAngles (resolution : ℝ) : List ℝ := anglesLoop resolution 0 100

/-- The bearing list of the part_004 variant of `generateCoveragePolygon`
(src/unnamed/part_004 lines 22-26), which first clamps the resolution:
`power >= 1.0 ? Math.max(resolution, 12) : Math.max(resolution, 20)`. -/
def coverageAnglesP4 (power resolution : ℝ) : List ℝ :=
  coverageAngles (if 1 ≤ power then max resolution 12 else max resolution 20)

/-- Model of `calculateDestination(lat, lng, bearing, distance)` (src/api/coverage.js
lines 180-200): spherical direct geodesic.  `Math.asin` is modelled by
`Real.arcsin`; its argument is a dot product of unit vectors and stays in
[-1, 1], where the two functions agree. -/
def calculateDestination (lat lng bearing distance : ℝ) : GeoPoint :=
  let R : ℝ := 6371
  let bearingRad := bearing * Real.pi / 180
  let latRad := lat * Real.pi / 180
  let lngRad := lng * Real.pi / 180
  let newLatRad := Real.arcsin (Real.sin latRad * Real.cos (distance / R) +
    Real.cos latRad * Real.sin (distance / R) * Real.cos bearingRad)
  let newLngRad := lngRad + atan2R
    (Real.sin bearingRad * Real.sin (distance / R) * Real.cos latRad)
    (Real.cos (distance / R) - Real.sin latRad * Real.sin newLatRad)
  ⟨newLatRad * 180 / Real.pi, newLngRad * 180 / Real.pi⟩

/-- The outcome of one elevation fetch inside
`calculateCoverageInDirection`: `fetched profile` models a completed
request whose parsed profile array is `profile` (the empty list covers both
a non-ok response and an ok response with an empty profile, which the
source replaces by a flat two-sample fallback), and `failed` models a
thrown error, handled by the catch branch. -/
inductive FetchOutcome where
  | fetched (profile : List Sample)
  | failed

/-- The ray-marching loop of `calculateCoverageInDirection`
(src/api/coverage.js lines 100-162), stepping `distance` by 0.5 km while
`distance <= maxRange`, fuel-bounded.  The state is the last good distance
and point; `oracle` gives the elevation-fetch outcome at each step. -/
def marchLoop (oracle : ℝ → FetchOutcome) (txLat txLng power bearing maxRange : ℝ) :
    ℝ → ℝ → GeoPoint → ℕ → ℝ × GeoPoint
  | _, lastGoodDistance, lastGoodPoint, 0 => (lastGoodDistance, lastGoodPoint)
  | distance, lastGoodDistance, lastGoodPoint, fuel + 1 =>
    if distance ≤ maxRange then
      let point := calculateDestination txLat txLng bearing distance
      match oracle distance with
      | .fetched resp =>
        let elevationProfile :=
          if resp.length = 0 then
            [⟨0, 100⟩, ⟨distance * 1000, 100⟩]
          else resp
        let totalDistance := distance * 1000
        let terrainAnalysis := RFCalculator.analyzeTerrainProfile elevationProfile
          totalDistance RFCalculator.antennaHeight RFCalculator.antennaHeight
        let linkBudget := RFCalculator.calculateLinkBudget power power totalDistance
          terrainAnalysis
        if jge linkBudget.linkMargin (num 10) then
          marchLoop oracle txLat txLng power bearing maxRange (distance + 0.5) distance
            point fuel
        else (lastGoodDistance, lastGoodPoint)
      | .failed =>
        let estimatedRange : ℝ := if 1 ≤ power then 15 else 8
        if distance ≤ estimatedRange then
          marchLoop oracle txLat txLng power bearing maxRange (distance + 0.5) distance
            point fuel
        else (lastGoodDistance, lastGoodPoint)
    else (lastGoodDistance, lastGoodPoint)

/-- The return object of `calculateCoverageInDirection` (its constant
`linkMargin: 10` field included). -/
structure DirectionResult where
  lat : ℝ
  lng : ℝ
  coverageDistance : ℝ
  linkMargin : ℝ

/-- Model of `calculateCoverageInDirection(txLat, txLng, power, bearing, maxRange)`:
march outward from 0.5 km; the initial last good point is the transmitter
at distance 0. -/
def calculateCoverageInDirection (oracle : ℝ → FetchOutcome)
    (txLat txLng power bearing maxRange : ℝ) (fuel : ℕ) : DirectionResult :=
  let r := marchLoop oracle txLat txLng power bearing maxRange 0.5 0 ⟨txLat, txLng⟩ fuel
  ⟨r.2.lat, r.2.lng, r.1, 10⟩

/-- One polygon vertex pushed by `generateCoveragePolygon`. -/
structure CoveragePoint where
  lat : ℝ
  lng : ℝ
  distance : ℝ
  angle : ℝ
  linkMargin : ℝ

/-- The response object of `generateCoveragePolygon` (the fields of the
transmitter echo are flattened). -/
structure CoverageResult where
  transmitterLat : ℝ
  transmitterLng : ℝ
  transmitterPower : ℝ
  polygon : List CoveragePoint
  maxRangeOut : ℝ
  avgRange : ℝ
  pointCount : ℕ

/-- Model of `generateCoveragePolygon(lat, lng, power, resolution, maxRange)`
(src/api/coverage.js lines 15-88).  The batching into groups of 8 with
inter-batch delays only schedules the same independent per-bearing
computations, so the result list is modelled as a map over the bearings in
order.  Points with `coverageDistance > 0` are kept; if fewer than 3
survive, a fallback circle of 12 points at a fixed power-dependent radius
(10 km at 1 W and above, else 6 km) is appended regardless of `maxRange`.
The JS function also redeclares its `maxRange` parameter with `const
maxRange = ...` at line 77, an identifier-redeclaration SyntaxError in
JavaScript; the intended dataflow (the returned aggregate field, here
`maxRangeOut`) is modelled.  `result.linkMargin || 10` always sees the
constant 10, hence the plain field read. -/
def generateCoveragePolygon (oracle : ℝ → ℝ → FetchOutcome)
    (lat lng power resolution maxRange : ℝ) (fuel : ℕ) : CoverageResult :=
  let angles := coverageAngles resolution
  let results := angles.map (fun angle =>
    calculateCoverageInDirection (oracle angle) lat lng power angle maxRange fuel)
  let coveragePoints := (angles.zip results).filterMap (fun ar =>
    if ar.2.coverageDistance > 0 then
      some ⟨ar.2.lat, ar.2.lng, ar.2.coverageDistance, ar.1, ar.2.linkMargin⟩
    else none)
  let fallbackRadius : ℝ := if 1 ≤ power then 10 else 6
  let finalPoints :=
    if coveragePoints.length < 3 then
      coveragePoints ++ (anglesLoop 30 0 100).map (fun angle =>
        let point := calculateDestination lat lng angle fallbackRadius
        ⟨point.lat, point.lng, fallbackRadius, angle, 15⟩)
    else coveragePoints
  let maxRangeOut :=
    if 0 < finalPoints.length then ((finalPoints.map (·.distance)).foldr max 0) else 0
  let avgRange :=
    if 0 < finalPoints.length then
      ((finalPoints.map (·.distance)).foldr (· + ·) 0) / (finalPoints.length : ℝ)
    else 0
  ⟨lat, lng, power, finalPoints, maxRangeOut, avgRange, finalPoints.length⟩

end CoverageApi

@[simp] theorem jadd_num_num (a b : ℝ) : jadd (num a) (num b) = num (a + b) := rfl
@[simp] theorem jsub_num_num (a b : ℝ) : jsub (num a) (num b) = num (a - b) := rfl
@[simp] theorem jmul_num_num (a b : ℝ) : jmul (num a) (num b) = num (a * b) := rfl

@[simp] theorem jadd_nan_left (b : JSVal) : jadd nan b = nan := by
  cases b <;> rfl

@[simp] theorem jadd_nan_right (a : JSVal) : jadd a nan = nan := by
  cases a <;> rfl

@[simp] theorem jsub_nan_left (b : JSVal) : jsub nan b = nan := by
  cases b <;> rfl

@[simp] theorem jsub_nan_right (a : JSVal) : jsub a nan = nan := by
  cases a <;> rfl

@[simp] theorem jmul_nan_left (b : JSVal) : jmul nan b = nan := by
  cases b <;> rfl

@[simp] theorem jmul_nan_right (a : JSVal) : jmul a nan = nan := by
  cases a <;> rfl

@[simp] theorem jdiv_nan_left (b : JSVal) : jdiv nan b = nan := by
  cases b <;> rfl

@[simp] theorem jdiv_nan_right (a : JSVal) : jdiv a nan = nan := by
  cases a <;> rfl

theorem jdiv_num_num_of_ne (a : ℝ) {b : ℝ} (hb : b ≠ 0) :
    jdiv (num a) (num b) = num (a / b) := by
  simp [jdiv, hb]

@[simp] theorem jdiv_zero_zero : jdiv (num 0) (num 0) = nan := by
  simp [jdiv]

theorem jsqrt_num_of_nonneg {x : ℝ} (hx : 0 ≤ x) :
    jsqrt (num x) = num (Real.sqrt x) := by
  simp [jsqrt, not_lt.mpr hx]

theorem jsqrt_num_of_neg {x : ℝ} (hx : x < 0) : jsqrt (num x) = nan := by
  simp [jsqrt, hx]

@[simp] theorem jsqrt_nan : jsqrt nan = nan := rfl

@[simp] theorem jabs_num (x : ℝ) : jabs (num x) = num |x| := rfl
@[simp] theorem jabs_nan : jabs nan = nan := rfl
@[simp] theorem jsin_num (x : ℝ) : jsin (num x) = num (Real.sin x) := rfl
@[simp] theorem jsin_nan : jsin nan = nan := rfl
@[simp] theorem jcos_num (x : ℝ) : jcos (num x) = num (Real.cos x) := rfl
@[simp] theorem jexp_num (x : ℝ) : jexp (num x) = num (Real.exp x) := rfl

theorem jlog10_num_of_pos {x : ℝ} (hx : 0 < x) :
    jlog10 (num x) = num (Real.logb 10 x) := by
  simp [jlog10, hx]

@[simp] theorem jlog10_num_zero : jlog10 (num 0) = inf false := by
  simp [jlog10]

theorem jlog10_num_of_neg {x : ℝ} (hx : x < 0) : jlog10 (num x) = nan := by
  simp [jlog10, hx, not_lt.mpr hx.le, hx.ne]

@[simp] theorem jlog10_nan : jlog10 nan = nan := rfl

@[simp] theorem jatan2_num_num (y x : ℝ) : jatan2 (num y) (num x) = num (atan2R y x) := rfl
@[simp] theorem jatan2_nan_left (x : JSVal) : jatan2 nan x = nan := by
  cases x <;> rfl

@[simp] theorem jatan2_nan_right (y : JSVal) : jatan2 y nan = nan := by
  cases y <;> rfl

@[simp] theorem jlt_num_num (a b : ℝ) : jlt (num a) (num b) = decide (a < b) := rfl
@[simp] theorem jle_num_num (a b : ℝ) : jle (num a) (num b) = decide (a ≤ b) := rfl
@[simp] theorem jlt_nan_left (b : JSVal) : jlt nan b = false := by
  cases b <;> rfl

@[simp] theorem jlt_nan_right (a : JSVal) : jlt a nan = false := by
  cases a <;> rfl

@[simp] theorem jle_nan_left (b : JSVal) : jle nan b = false := by
  cases b <;> rfl

@[simp] theorem jle_nan_right (a : JSVal) : jle a nan = false := by
  cases a <;> rfl

@[simp] theorem jgt_def (a b : JSVal) : jgt a b = jlt b a := rfl
@[simp] theorem jge_def (a b : JSVal) : jge a b = jle b a := rfl

@[simp] theorem jeq_num_num (a b : ℝ) : jeq (num a) (num b) = decide (a = b) := rfl
@[simp] theorem jeq_nan_left (b : JSVal) : jeq nan b = false := by
  cases b <;> rfl

@[simp] theorem jmin_nan_left (b : JSVal) : jmin nan b = nan := by
  cases b <;> rfl

@[simp] theorem jmin_nan_right (a : JSVal) : jmin a nan = nan := by
  cases a with
  | num x => rfl
  | nan => rfl
  | inf s => cases s <;> rfl

@[simp] theorem jmin_num_num (a b : ℝ) : jmin (num a) (num b) = num (min a b) := rfl
@[simp] theorem jmin_posinf_num (b : ℝ) : jmin (inf true) (num b) = num b := rfl

@[simp] theorem jmax_nan_left (b : JSVal) : jmax nan b = nan := by
  cases b <;> rfl

@[simp] theorem jmax_nan_right (a : JSVal) : jmax a nan = nan := by
  cases a with
  | num x => rfl
  | nan => rfl
  | inf s => cases s <;> rfl

@[simp] theorem jmax_num_num (a b : ℝ) : jmax (num a) (num b) = num (max a b) := rfl

theorem jmul_num_inf_of_pos {x : ℝ} (hx : 0 < x) (s : Bool) :
    jmul (num x) (inf s) = inf s := by
  simp [jmul, hx, hx.ne']

theorem jadd_inf_num (s : Bool) (b : ℝ) : jadd (inf s) (num b) = inf s := rfl
theorem jadd_num_inf (a : ℝ) (s : Bool) : jadd (num a) (inf s) = inf s := rfl
theorem jsub_num_inf (a : ℝ) (s : Bool) : jsub (num a) (inf s) = inf (!s) := rfl
theorem jsub_inf_num (s : Bool) (b : ℝ) : jsub (inf s) (num b) = inf s := rfl

/-! Helper lemmas about the JS value model and the embedded definitions. -/

theorem jmul_pos_inf {x : ℝ} (hx : 0 < x) (s : Bool) :
    jmul (num x) (inf s) = inf s := by
  simp [jmul, hx, hx.ne']

theorem rfutils_wavelength_pos : 0 < RFUtils.wavelength := by
  norm_num [RFUtils.wavelength, RFUtils.frequency]

theorem rfcalc_wavelength_pos : 0 < RFCalculator.wavelength := by
  norm_num [RFCalculator.wavelength, RFCalculator.cLight, RFCalculator.frequency]

theorem RFUtils.getRequiredFresnelClearance_pos (d : ℝ) :
    0 < RFUtils.getRequiredFresnelClearance d := by
  unfold RFUtils.getRequiredFresnelClearance
  split_ifs <;> norm_num

/-- Claim C3: the reliability computation is exactly the piecewise function
of the specification: 0 below -10 dB of margin, `50 + (margin+10)*5` on
[-10, 0), `90 + margin*0.5` on [0, 20), and 99.9 at and above 20 dB. -/
theorem c3_reliability_matches_spec (m : ℝ) :
    LinkBudgetCalculator.calculateReliability m = reliabilitySpec m := by
  unfold LinkBudgetCalculator.calculateReliability reliabilitySpec
  by_cases h1 : m < -10
  · simp [h1]
  · by_cases h2 : m < 0
    · simp [h1, h2, not_lt.mp h1]
    · by_cases h3 : m < 20
      · simp [h1, h2, h3, not_lt.mp h2]
      · simp [h1, h2, h3]

theorem fspl_zero_eval : RFUtils.calculateFSPL 0 RFUtils.frequency = inf false := by
  unfold RFUtils.calculateFSPL
  rw [jlog10_num_zero, jmul_pos_inf (by norm_num),
    jlog10_num_of_pos (by norm_num [RFUtils.frequency])]
  rfl

theorem fspl_neg_eval {d : ℝ} (hd : d < 0) :
    RFUtils.calculateFSPL d RFUtils.frequency = JSVal.nan := by
  unfold RFUtils.calculateFSPL
  rw [jlog10_num_of_neg hd]
  simp

/-- Claim C7, counterexample: `calculateFSPL` raises no `DomainError` for a
non-positive distance.  At distance 0 it returns the JS number `-Infinity`
and at distance -1 it returns NaN; its codomain in the embedding is plain
JS values because the source has no failure channel at all (`Math.log10`
does not throw). -/
theorem c7_counterexample_fspl_no_error :
    RFUtils.calculateFSPL 0 RFUtils.frequency = inf false ∧
    RFUtils.calculateFSPL (-1) RFUtils.frequency = JSVal.nan :=
  ⟨fspl_zero_eval, fspl_neg_eval (by norm_num)⟩

/-- Claim C7, amended: for every `distanceKm ≤ 0` the free-space path-loss
computation does not fail: it returns the numeric JS value `-Infinity` when
the distance is 0 and NaN when it is negative; no `DomainError` (or any
other error) is raised. -/
theorem c7_amended_fspl_nonpositive_distance (d : ℝ) (hd : d ≤ 0) :
    RFUtils.calculateFSPL d RFUtils.frequency =
      (if d = 0 then inf false else JSVal.nan) := by
  rcases hd.lt_or_eq with hneg | h0
  · rw [if_neg hneg.ne, fspl_neg_eval hneg]
  · subst h0
    rw [if_pos rfl, fspl_zero_eval]

/-- Witness for the amended claim C7 at the concrete distance 0. -/
theorem c7_witness :
    (0 : ℝ) ≤ 0 ∧
      RFUtils.calculateFSPL 0 RFUtils.frequency =
        (if (0 : ℝ) = 0 then inf false else JSVal.nan) :=
  ⟨le_refl 0, c7_amended_fspl_nonpositive_distance 0 (le_refl 0)⟩

/-- Claim C4, counterexample: for a degenerate profile (here the empty one)
`RFCalculator.analyzeTerrainProfile` does not fail fast - it returns
`clearance = 1.0` and `obstruction = 0`, a result that reports the path as
fully clear. -/
theorem c4_counterexample_short_profile_fully_clear :
    RFCalculator.analyzeTerrainProfile [] 1000 1.83 1.83 =
      ⟨num 1.0, num 0, inf true⟩ := by
  norm_num [RFCalculator.analyzeTerrainProfile]

/-- Claim C4, amended: for every profile with fewer than 2 samples,
`RFUtils.analyzeFresnelClearance` does fail fast (hasAdequateClearance is
false and the error field is set), but `RFCalculator.analyzeTerrainProfile`
instead reports the degenerate path as fully clear (clearance 1.0, zero
obstruction). -/
theorem c4_amended_short_profile_behaviour (profile : List Sample) (txH rxH D : ℝ)
    (hlen : profile.length < 2) :
    (RFUtils.analyzeFresnelClearance profile txH rxH D).hasAdequateClearance = false ∧
    (RFUtils.analyzeFresnelClearance profile txH rxH D).error =
      some RFUtils.AnalysisError.invalidPathProfile ∧
    (RFCalculator.analyzeTerrainProfile profile D txH rxH).clearance = num 1.0 ∧
    (RFCalculator.analyzeTerrainProfile profile D txH rxH).obstruction = num 0 := by
  unfold RFUtils.analyzeFresnelClearance RFCalculator.analyzeTerrainProfile
  simp [hlen]

/-- Witness for the amended claim C4 at the empty profile. -/
theorem c4_witness :
    ([] : List Sample).length < 2 ∧
      (RFUtils.analyzeFresnelClearance [] 10 10 1).hasAdequateClearance = false ∧
      (RFUtils.analyzeFresnelClearance [] 10 10 1).error =
        some RFUtils.AnalysisError.invalidPathProfile ∧
      (RFCalculator.analyzeTerrainProfile [] 1 10 10).clearance = num 1.0 ∧
      (RFCalculator.analyzeTerrainProfile [] 1 10 10).obstruction = num 0 :=
  ⟨by norm_num, c4_amended_short_profile_behaviour [] 10 10 1 (by norm_num)⟩

theorem jge_num_mono {m : JSVal} {a b : ℝ} (hab : b ≤ a)
    (h : jge m (num a) = true) : jge m (num b) = true := by
  cases m with
  | num x =>
      simp only [jge_def, jle_num_num, decide_eq_true_eq] at h ⊢
      linarith
  | nan => simp at h
  | inf s =>
      cases s with
      | true => rfl
      | false => simp [jge, jle] at h

theorem jlt_num_false_of_jge {m : JSVal} {a : ℝ}
    (h : jge m (num a) = true) : jlt m (num a) = false := by
  cases m with
  | num x =>
      simp only [jge_def, jle_num_num, decide_eq_true_eq] at h
      simp only [jlt_num_num, decide_eq_false_iff_not]
      linarith
  | nan => simp at h
  | inf s =>
      cases s with
      | true => rfl
      | false => simp [jge, jle] at h

theorem jlt_num_of_jge_between {m : JSVal} {a b : ℝ}
    (h10 : jge m (num b) = true) (h20 : jge m (num a) = false) :
    jlt m (num a) = true := by
  cases m with
  | num x =>
      simp only [jge_def, jle_num_num, decide_eq_true_eq] at h10
      simp only [jge_def, jle_num_num, decide_eq_false_iff_not, not_le] at h20
      simp only [jlt_num_num, decide_eq_true_eq]
      exact h20
  | nan => simp at h10
  | inf s =>
      cases s with
      | true => simp [jge, jle] at h20
      | false => simp [jge, jle] at h10

/-- Claim C10: `RFCalculator.calculateLinkBudget` assigns quality `good`
exactly when the returned link margin satisfies `linkMargin >= 20` in JS
semantics, `marginal` exactly when `10 <= linkMargin < 20`, and `poor`
otherwise (equivalently: when `linkMargin >= 10` is false, which includes a
NaN margin); the value `excellent` - for which the UI of
src/unnamed/part_002 defines a color - is never produced. -/
theorem c10_quality_thresholds (txPower rxPower distance : ℝ)
    (ta : RFCalculator.TerrainAnalysis) :
    ((RFCalculator.calculateLinkBudget txPower rxPower distance ta).quality =
        RFCalculator.LinkQuality.good ↔
      jge (RFCalculator.calculateLinkBudget txPower rxPower distance ta).linkMargin
        (num 20) = true) ∧
    ((RFCalculator.calculateLinkBudget txPower rxPower distance ta).quality =
        RFCalculator.LinkQuality.marginal ↔
      (jge (RFCalculator.calculateLinkBudget txPower rxPower distance ta).linkMargin
        (num 10) = true ∧
       jlt (RFCalculator.calculateLinkBudget txPower rxPower distance ta).linkMargin
        (num 20) = true)) ∧
    ((RFCalculator.calculateLinkBudget txPower rxPower distance ta).quality =
        RFCalculator.LinkQuality.poor ↔
      jge (RFCalculator.calculateLinkBudget txPower rxPower distance ta).linkMargin
        (num 10) = false) ∧
    (RFCalculator.calculateLinkBudget txPower rxPower distance ta).quality ≠
      RFCalculator.LinkQuality.excellent := by
  unfold RFCalculator.calculateLinkBudget
  simp only []
  generalize (jsub
    (jsub
      (jsub
        (jsub (jadd (jmul (num 10) (jlog10 (num (txPower * 1000))))
          (num (2 * RFCalculator.antennaGain)))
          (RFCalculator.freeSpacePathLoss distance))
        (if jgt ta.obstruction (num 0) = true then
          jmul (num 20) (jlog10 (jsqrt (jmul (num (2 * Real.pi)) ta.obstruction)))
        else num 0))
      (if jlt ta.clearance (num 1.0) = true then
        jmul (num 6) (jsub (num 1) ta.clearance)
      else num 0))
    (num RFCalculator.receiverSensitivity)) = m
  simp only [jge_def, jgt_def]
  cases h20 : jle (num 20) m with
  | true =>
      have hlt20 : jlt m (num 20) = false := jlt_num_false_of_jge h20
      have h10 : jle (num 10) m = true := jge_num_mono (by norm_num : (10:ℝ) ≤ 20) h20
      simp [h20, h10, hlt20]
  | false =>
      by_cases h10 : jle (num 10) m = true
      · have hlt : jlt m (num 20) = true := jlt_num_of_jge_between h10 h20
        simp [h20, h10, hlt]
      · rw [Bool.not_eq_true] at h10
        simp [h20, h10]

/-- Witness for claim C10 at concrete inputs. -/
theorem c10_witness :
    (RFCalculator.calculateLinkBudget 1 1 1000 ⟨num 1, num 0, inf true⟩).quality ≠
      RFCalculator.LinkQuality.excellent :=
  (c10_quality_thresholds 1 1 1000 ⟨num 1, num 0, inf true⟩).2.2.2

theorem coverageAngles_len15 : (CoverageApi.coverageAngles 15).length = 24 := by
  norm_num [CoverageApi.coverageAngles, CoverageApi.anglesLoop]

theorem coverageAngles_len10 : (CoverageApi.coverageAngles 10).length = 36 := by
  norm_num [CoverageApi.coverageAngles, CoverageApi.anglesLoop]

theorem coverageAngles_len12 : (CoverageApi.coverageAngles 12).length = 30 := by
  norm_num [CoverageApi.coverageAngles, CoverageApi.anglesLoop]

theorem coverageAngles_len20 : (CoverageApi.coverageAngles 20).length = 18 := by
  norm_num [CoverageApi.coverageAngles, CoverageApi.anglesLoop]

theorem coverageAnglesP4_ge (p res : ℝ) (hp : 1 ≤ p) :
    CoverageApi.coverageAnglesP4 p res = CoverageApi.coverageAngles (max res 12) := by
  unfold CoverageApi.coverageAnglesP4
  rw [if_pos hp]

theorem coverageAnglesP4_lt (p res : ℝ) (hp : p < 1) :
    CoverageApi.coverageAnglesP4 p res = CoverageApi.coverageAngles (max res 20) := by
  unfold CoverageApi.coverageAnglesP4
  rw [if_neg (not_le.mpr hp)]

/-- Claim C8, counterexample: in the part_004 variant of the coverage
generator, a resolution of 10 degrees with a 1 W transmitter is clamped to
`max(10, 12) = 12` degrees, so 30 bearings are marched, not 36. -/
theorem c8_counterexample_p4_bearing_count :
    (CoverageApi.coverageAnglesP4 1 10).length = 30 ∧
    (CoverageApi.coverageAnglesP4 1 10).length ≠ 36 := by
  rw [coverageAnglesP4_ge 1 10 le_rfl, max_eq_right (by norm_num : (10:ℝ) ≤ 12),
    coverageAngles_len12]
  exact ⟨rfl, by norm_num⟩

/-- Claim C8, amended: in src/api/coverage.js a resolution of 15 degrees
yields exactly 24 bearings and 10 degrees yields 36; in the part_004
variant the resolution is first clamped to `max(resolution, 12)` when the
power is at least 1 W (so 15 degrees still gives 24 bearings but 10 degrees
gives 30) and to `max(resolution, 20)` for lower power (18 bearings in both
cases). -/
theorem c8_amended_bearing_counts :
    (CoverageApi.coverageAngles 15).length = 24 ∧
    (CoverageApi.coverageAngles 10).length = 36 ∧
    (∀ p : ℝ, 1 ≤ p →
      (CoverageApi.coverageAnglesP4 p 15).length = 24 ∧
      (CoverageApi.coverageAnglesP4 p 10).length = 30) ∧
    (∀ p : ℝ, p < 1 →
      (CoverageApi.coverageAnglesP4 p 15).length = 18 ∧
      (CoverageApi.coverageAnglesP4 p 10).length = 18) := by
  refine ⟨coverageAngles_len15, coverageAngles_len10, ?_, ?_⟩
  · intro p hp
    rw [coverageAnglesP4_ge p 15 hp, coverageAnglesP4_ge p 10 hp,
      max_eq_left (by norm_num : (12:ℝ) ≤ 15), max_eq_right (by norm_num : (10:ℝ) ≤ 12)]
    exact ⟨coverageAngles_len15, coverageAngles_len12⟩
  · intro p hp
    rw [coverageAnglesP4_lt p 15 hp, coverageAnglesP4_lt p 10 hp,
      max_eq_right (by norm_num : (15:ℝ) ≤ 20), max_eq_right (by norm_num : (10:ℝ) ≤ 20)]
    exact ⟨coverageAngles_len20, coverageAngles_len20⟩

/-- Witness for the amended claim C8 at powers 1 W and 0.5 W. -/
theorem c8_witness :
    ((1:ℝ) ≤ 1 ∧
      (CoverageApi.coverageAnglesP4 1 15).length = 24 ∧
      (CoverageApi.coverageAnglesP4 1 10).length = 30) ∧
    ((0.5:ℝ) < 1 ∧
      (CoverageApi.coverageAnglesP4 0.5 15).length = 18 ∧
      (CoverageApi.coverageAnglesP4 0.5 10).length = 18) :=
  ⟨⟨le_refl 1, c8_amended_bearing_counts.2.2.1 1 (le_refl 1)⟩,
   ⟨by norm_num, c8_amended_bearing_counts.2.2.2 0.5 (by norm_num)⟩⟩

/-- Claim C2, counterexample: the radicand of the `v > 2.4` branch of
`calculateKnifeEdgeLoss` is NOT clamped; for an obstacle 100 m above the
path with d1 = d2 = 1 km the Fresnel-Kirchhoff parameter is about 11, the
radicand `0.1184 - (0.38 - 0.1 v)^2` is negative, `Math.sqrt` of it is NaN
and `Math.max(0, NaN)` is NaN, so the function returns NaN - not a
non-negative real. -/
theorem c2_counterexample_knife_edge_nan :
    RFUtils.calculateKnifeEdgeLoss 100 1 1 = JSVal.nan := by
  unfold RFUtils.calculateKnifeEdgeLoss
  simp only []
  have hden : RFUtils.wavelength * (1 * 1000) * (1 * 1000) ≠ 0 := by
    norm_num [RFUtils.wavelength, RFUtils.frequency]
  rw [jdiv_num_num_of_ne _ hden]
  have hc : (2 * ((1:ℝ) * 1000 + 1 * 1000) / (RFUtils.wavelength * (1 * 1000) * (1 * 1000)))
      = 3660000 / 299792458 := by
    norm_num [RFUtils.wavelength, RFUtils.frequency]
  rw [hc, jsqrt_num_of_nonneg (by norm_num), jmul_num_num]
  set s := Real.sqrt (3660000 / 299792458) with hsdef
  have hs : 0.0725 < s := by
    rw [hsdef]
    rw [show (0.0725:ℝ) = Real.sqrt (0.0725 ^ 2) from
      (Real.sqrt_sq (by norm_num)).symm]
    exact Real.sqrt_lt_sqrt (by norm_num) (by norm_num)
  have b1 : jle (num (100 * s)) (num (-2.4)) = false := by
    simp only [jle_num_num]
    exact decide_eq_false (by nlinarith)
  have b2 : jle (num (100 * s)) (num 0) = false := by
    simp only [jle_num_num]
    exact decide_eq_false (by nlinarith)
  have b3 : jle (num (100 * s)) (num 2.4) = false := by
    simp only [jle_num_num]
    exact decide_eq_false (by nlinarith)
  rw [b1, b2, b3]
  simp only [Bool.false_eq_true, if_false]
  rw [jmul_num_num, jsub_num_num, jmul_num_num, jsub_num_num,
    jsqrt_num_of_neg (by nlinarith [sq_nonneg (s - 0.0725)])]
  simp

/-- Claim C2, amended: for `d1, d2 > 0` the knife-edge loss is a
non-negative real number PROVIDED the `v > 2.4` branch's radicand
`0.1184 - (0.38 - 0.1 v)^2` is non-negative (equivalently, provided the
execution stays out of that branch, `v ≤ 2.4`).  The final `Math.max(0, ·)`
clamp exists, but the radicand clamp claimed by the specification does not:
when the radicand is negative the function returns NaN (see the
counterexample). -/
theorem c2_amended_knife_edge_nonneg (h d1 d2 : ℝ) (h1 : 0 < d1) (h2 : 0 < d2)
    (hrad : RFUtils.fresnelV h d1 d2 ≤ 2.4 ∨
      0 ≤ 0.1184 - (0.38 - 0.1 * RFUtils.fresnelV h d1 d2) *
        (0.38 - 0.1 * RFUtils.fresnelV h d1 d2)) :
    ∃ x : ℝ, RFUtils.calculateKnifeEdgeLoss h d1 d2 = num x ∧ 0 ≤ x := by
  have hwl := rfutils_wavelength_pos
  have hdenpos : 0 < RFUtils.wavelength * (d1 * 1000) * (d2 * 1000) := by positivity
  unfold RFUtils.calculateKnifeEdgeLoss
  simp only []
  rw [jdiv_num_num_of_ne _ hdenpos.ne']
  have hC : (0:ℝ) ≤ 2 * (d1 * 1000 + d2 * 1000) /
      (RFUtils.wavelength * (d1 * 1000) * (d2 * 1000)) := by positivity
  rw [jsqrt_num_of_nonneg hC, jmul_num_num]
  have hv : h * Real.sqrt (2 * (d1 * 1000 + d2 * 1000) /
      (RFUtils.wavelength * (d1 * 1000) * (d2 * 1000))) = RFUtils.fresnelV h d1 d2 := rfl
  rw [hv]
  set v := RFUtils.fresnelV h d1 d2 with hvdef
  by_cases hb1 : v ≤ -2.4
  · rw [if_pos (by simp [hb1])]
    exact ⟨max 0 0, by rw [jmax_num_num], le_max_left _ _⟩
  · rw [if_neg (by simp [hb1])]
    by_cases hb2 : v ≤ 0
    · rw [if_pos (by simp [hb2])]
      have hpos : (0:ℝ) < 0.5 - 0.62 * v := by nlinarith
      rw [jmul_num_num, jsub_num_num, jlog10_num_of_pos hpos, jmul_num_num, jmax_num_num]
      exact ⟨_, rfl, le_max_left _ _⟩
    · rw [if_neg (by simp [hb2])]
      by_cases hb3 : v ≤ 2.4
      · rw [if_pos (by simp [hb3])]
        have hpos : (0:ℝ) < 0.5 * Real.exp (-0.95 * v) := by positivity
        rw [jmul_num_num, jexp_num, jmul_num_num, jlog10_num_of_pos hpos,
          jmul_num_num, jmax_num_num]
        exact ⟨_, rfl, le_max_left _ _⟩
      · rw [if_neg (by simp [hb3])]
        rcases hrad with hr | hr
        · exact absurd hr hb3
        · rw [jmul_num_num, jsub_num_num, jmul_num_num, jsub_num_num,
            jsqrt_num_of_nonneg hr]
          have hradle : 0.1184 - (0.38 - 0.1 * v) * (0.38 - 0.1 * v) < 0.16 := by
            nlinarith [sq_nonneg (0.38 - 0.1 * v)]
          have hsq : Real.sqrt (0.1184 - (0.38 - 0.1 * v) * (0.38 - 0.1 * v)) < 0.4 :=
            (Real.sqrt_lt' (by norm_num)).mpr (by nlinarith)
          have hpos : (0:ℝ) < 0.4 -
              Real.sqrt (0.1184 - (0.38 - 0.1 * v) * (0.38 - 0.1 * v)) := by linarith
          rw [jsub_num_num, jlog10_num_of_pos hpos, jmul_num_num, jmax_num_num]
          exact ⟨_, rfl, le_max_left _ _⟩

/-- Witness for the amended claim C2 at `h = 0`, `d1 = d2 = 1` (no obstacle:
`v = 0`, so the left disjunct of the radicand hypothesis holds). -/
theorem c2_witness :
    (0:ℝ) < 1 ∧ RFUtils.fresnelV 0 1 1 ≤ 2.4 ∧
      ∃ x : ℝ, RFUtils.calculateKnifeEdgeLoss 0 1 1 = num x ∧ 0 ≤ x :=
  ⟨by norm_num, by norm_num [RFUtils.fresnelV],
    c2_amended_knife_edge_nonneg 0 1 1 (by norm_num) (by norm_num)
      (Or.inl (by norm_num [RFUtils.fresnelV]))⟩

@[simp] theorem jsqrt_num_zero : jsqrt (num 0) = num 0 := by
  simp [jsqrt, Real.sqrt_zero]

@[simp] theorem jsqrt_num_one : jsqrt (num 1) = num 1 := by
  norm_num [jsqrt, Real.sqrt_one]

@[simp] theorem atan2R_zero_one : atan2R 0 1 = 0 := by
  simp [atan2R, Real.arctan_zero]

theorem generatePathPoints_self (s : GeoPoint) (n : ℕ) :
    ElevationService.generatePathPoints s s n =
      (List.range n).map (ElevationService.pathPointAt s s (num 0) n) := by
  unfold ElevationService.generatePathPoints
  simp only [sub_self, zero_div, Real.sin_zero, mul_zero, zero_mul, add_zero, zero_add,
    sub_zero, jsqrt_num_zero, jsqrt_num_one, jatan2_num_num, atan2R_zero_one, jmul_num_num]

theorem pathPointAt_zero (s f : GeoPoint) (c : JSVal) (n : ℕ) (hn : 2 ≤ n) :
    ElevationService.pathPointAt s f c n 0 = (num s.lat, num s.lng) := by
  have hge : (2:ℝ) ≤ (n:ℝ) := by exact_mod_cast hn
  have hne : ((n:ℝ) - 1) ≠ 0 := by linarith
  unfold ElevationService.pathPointAt
  rw [jdiv_num_num_of_ne _ hne]
  norm_num

theorem pathPointAt_last (s f : GeoPoint) (c : JSVal) (n : ℕ) (hn : 2 ≤ n) :
    ElevationService.pathPointAt s f c n (n - 1) = (num f.lat, num f.lng) := by
  have hge : (2:ℝ) ≤ (n:ℝ) := by exact_mod_cast hn
  have hne : ((n:ℝ) - 1) ≠ 0 := by linarith
  have hcast : ((n - 1 : ℕ) : ℝ) = (n:ℝ) - 1 := by
    rw [Nat.cast_sub (by omega)]
    norm_num
  unfold ElevationService.pathPointAt
  rw [jdiv_num_num_of_ne _ hne, hcast, div_self hne]
  norm_num

theorem pathPointAt_mid (s : GeoPoint) (n i : ℕ) (hn : 2 ≤ n) (hi0 : 0 < i)
    (hilt : i < n - 1) :
    ElevationService.pathPointAt s s (num 0) n i = (JSVal.nan, JSVal.nan) := by
  have hge : (2:ℝ) ≤ (n:ℝ) := by exact_mod_cast hn
  have hne : ((n:ℝ) - 1) ≠ 0 := by linarith
  have hipos : (0:ℝ) < (i:ℝ) := by exact_mod_cast hi0
  have hiub : (i:ℝ) < (n:ℝ) - 1 := by
    have h1 : (i:ℝ) < ((n - 1 : ℕ) : ℝ) := by exact_mod_cast hilt
    rw [Nat.cast_sub (by omega)] at h1
    norm_num at h1
    linarith
  have hfpos : (0:ℝ) < (i:ℝ) / ((n:ℝ) - 1) := by
    apply div_pos hipos
    linarith
  have hflt : (i:ℝ) / ((n:ℝ) - 1) < 1 := by
    rw [div_lt_one (by linarith)]
    linarith
  unfold ElevationService.pathPointAt
  simp only []
  rw [jdiv_num_num_of_ne _ hne]
  rw [show jeq (num ((i:ℝ) / ((n:ℝ) - 1))) (num 0) = false from
    by simp only [jeq_num_num]; exact decide_eq_false hfpos.ne']
  rw [show jeq (num ((i:ℝ) / ((n:ℝ) - 1))) (num 1) = false from
    by simp only [jeq_num_num]; exact decide_eq_false hflt.ne]
  simp

/-- Claim C6, counterexample: with coincident start and end and 3 samples,
the interior sample of `generatePathPoints` divides `Math.sin((1-f)c)` by
`Math.sin(c) = 0` (the division is NOT guarded - only the fractions 0 and 1
are special-cased), so its coordinates are NaN rather than the start point
repeated. -/
theorem c6_counterexample_interior_nan :
    ElevationService.generatePathPoints ⟨0, 0⟩ ⟨0, 0⟩ 3 =
      [(num 0, num 0), (JSVal.nan, JSVal.nan), (num 0, num 0)] := by
  rw [generatePathPoints_self]
  rw [show List.range 3 = [0, 1, 2] from rfl, List.map_cons, List.map_cons,
    List.map_cons, List.map_nil]
  have h0 := pathPointAt_zero ⟨0, 0⟩ ⟨0, 0⟩ (num 0) 3 (by norm_num)
  have h1 := pathPointAt_mid ⟨0, 0⟩ 3 1 (by norm_num) (by norm_num) (by norm_num)
  have h2 := pathPointAt_last ⟨0, 0⟩ ⟨0, 0⟩ (num 0) 3 (by norm_num)
  rw [h0, h1]
  rw [show (2:ℕ) = 3 - 1 from rfl, h2]

/-- Claim C6, amended: for coincident endpoints and `sampleCount ≥ 2`, the
first and last samples are the start point exactly (their fractions are
special-cased), but every interior sample has NaN coordinates: the division
by `sin(c) = 0` in the interpolation branch is unguarded.  Only for
`sampleCount = 2` does the function return the start repeated with no NaN. -/
theorem c6_amended_coincident_endpoints (s : GeoPoint) (n : ℕ) (hn : 2 ≤ n) :
    (ElevationService.generatePathPoints s s n).length = n ∧
    (ElevationService.generatePathPoints s s n).get? 0 = some (num s.lat, num s.lng) ∧
    (ElevationService.generatePathPoints s s n).get? (n - 1) =
      some (num s.lat, num s.lng) ∧
    ∀ i : ℕ, 0 < i → i < n - 1 →
      (ElevationService.generatePathPoints s s n).get? i =
        some (JSVal.nan, JSVal.nan) := by
  rw [generatePathPoints_self]
  refine ⟨by simp, ?_, ?_, ?_⟩
  · rw [List.get?_map, List.get?_range (by omega)]
    simp only [Option.map_some']
    rw [pathPointAt_zero s s (num 0) n hn]
  · rw [List.get?_map, List.get?_range (by omega)]
    simp only [Option.map_some']
    rw [pathPointAt_last s s (num 0) n hn]
  · intro i hi0 hilt
    rw [List.get?_map, List.get?_range (by omega)]
    simp only [Option.map_some']
    rw [pathPointAt_mid s n i hn hi0 hilt]

/-- Witness for the amended claim C6 at the origin with 2 samples. -/
theorem c6_witness :
    2 ≤ 2 ∧
      ((ElevationService.generatePathPoints ⟨0, 0⟩ ⟨0, 0⟩ 2).length = 2 ∧
       (ElevationService.generatePathPoints ⟨0, 0⟩ ⟨0, 0⟩ 2).get? 0 =
         some (num (0:ℝ), num (0:ℝ)) ∧
       (ElevationService.generatePathPoints ⟨0, 0⟩ ⟨0, 0⟩ 2).get? (2 - 1) =
         some (num (0:ℝ), num (0:ℝ)) ∧
       ∀ i : ℕ, 0 < i → i < 2 - 1 →
         (ElevationService.generatePathPoints ⟨0, 0⟩ ⟨0, 0⟩ 2).get? i =
           some (JSVal.nan, JSVal.nan)) :=
  ⟨le_refl 2, c6_amended_coincident_endpoints ⟨0, 0⟩ 2 (le_refl 2)⟩

theorem earthRadius_den_ne : (2:ℝ) * RFUtils.earthRadius ≠ 0 := by
  norm_num [RFUtils.earthRadius]

theorem requiredHeightAt_num (txE rxE D pct : ℝ) (p : Sample) (hD : 0 < D)
    (hpct : 0 ≤ pct) (h0 : 0 ≤ p.distance) (h1 : p.distance ≤ D) :
    ∃ q : ℝ, RFUtils.requiredHeightAt txE rxE D pct p = num q ∧
      txE + (rxE - txE) * (p.distance / D) ≤ q := by
  have hwl := rfutils_wavelength_pos
  have hden : p.distance * 1000 + (D - p.distance) * 1000 ≠ 0 := by nlinarith
  have hrad : (0:ℝ) ≤ 1 * RFUtils.wavelength * (p.distance * 1000) *
      ((D - p.distance) * 1000) / (p.distance * 1000 + (D - p.distance) * 1000) := by
    apply div_nonneg
    · exact mul_nonneg (mul_nonneg (mul_nonneg (by norm_num) hwl.le)
        (by linarith)) (by linarith)
    · nlinarith
  unfold RFUtils.requiredHeightAt RFUtils.calculateEarthCurvature
    RFUtils.calculateFresnelZoneRadius
  simp only []
  rw [jdiv_num_num_of_ne _ hD.ne']
  simp only [jsub_num_num, jmul_num_num, jadd_num_num]
  rw [jdiv_num_num_of_ne _ earthRadius_den_ne, jdiv_num_num_of_ne _ hden,
    jsqrt_num_of_nonneg hrad]
  simp only [jadd_num_num, jmul_num_num]
  refine ⟨_, rfl, ?_⟩
  have hfrac0 : 0 ≤ p.distance / D := div_nonneg h0 hD.le
  have hfrac1 : p.distance / D ≤ 1 := (div_le_one hD).mpr h1
  have hcurv : (0:ℝ) ≤ D * 1000 * (p.distance / D) * (D * 1000 * (1 - p.distance / D)) /
      (2 * RFUtils.earthRadius) := by
    apply div_nonneg
    · apply mul_nonneg (by nlinarith) (by nlinarith)
    · norm_num [RFUtils.earthRadius]
  have hsq : (0:ℝ) ≤ Real.sqrt (1 * RFUtils.wavelength * (p.distance * 1000) *
      ((D - p.distance) * 1000) / (p.distance * 1000 + (D - p.distance) * 1000)) :=
    Real.sqrt_nonneg _
  nlinarith [mul_nonneg hsq hpct]

theorem requiredHeightAt_nan (txE rxE D pct : ℝ) (p : Sample) (hD : 0 < D)
    (h1 : D < p.distance) : RFUtils.requiredHeightAt txE rxE D pct p = JSVal.nan := by
  have hwl := rfutils_wavelength_pos
  have hdpos : 0 < p.distance := hD.trans h1
  have hden : p.distance * 1000 + (D - p.distance) * 1000 ≠ 0 := by nlinarith
  have hrad : 1 * RFUtils.wavelength * (p.distance * 1000) *
      ((D - p.distance) * 1000) / (p.distance * 1000 + (D - p.distance) * 1000) < 0 := by
    apply div_neg_of_neg_of_pos
    · exact mul_neg_of_pos_of_neg
        (mul_pos (mul_pos (by norm_num) hwl) (by linarith)) (by linarith)
    · nlinarith
  unfold RFUtils.requiredHeightAt RFUtils.calculateEarthCurvature
    RFUtils.calculateFresnelZoneRadius
  simp only []
  rw [jdiv_num_num_of_ne _ hD.ne']
  simp only [jsub_num_num, jmul_num_num, jadd_num_num]
  rw [jdiv_num_num_of_ne _ earthRadius_den_ne, jdiv_num_num_of_ne _ hden,
    jsqrt_num_of_neg hrad]
  simp

theorem clearanceAt_num (txE rxE D pct : ℝ) (p : Sample) (hD : 0 < D)
    (hpct : 0 ≤ pct) (h0 : 0 ≤ p.distance) (h1 : p.distance ≤ D) :
    ∃ q : ℝ, RFUtils.clearanceAt txE rxE D pct p = num (p.elevation - q) ∧
      txE + (rxE - txE) * (p.distance / D) ≤ q := by
  obtain ⟨q, hq, hb⟩ := requiredHeightAt_num txE rxE D pct p hD hpct h0 h1
  exact ⟨q, by rw [RFUtils.clearanceAt, hq, jsub_num_num], hb⟩

theorem clearanceAt_nan (txE rxE D pct : ℝ) (p : Sample) (hD : 0 < D)
    (h1 : D < p.distance) :
    RFUtils.clearanceAt txE rxE D pct p = JSVal.nan := by
  rw [RFUtils.clearanceAt, requiredHeightAt_nan txE rxE D pct p hD h1, jsub_nan_right]

theorem clearance_flat_nonpos (e hgt D pct : ℝ) (p : Sample) (hD : 0 < D)
    (hh : 0 < hgt) (hpct : 0 ≤ pct) (h0 : 0 ≤ p.distance) (hel : p.elevation = e) :
    jgt (RFUtils.clearanceAt (e + hgt) (e + hgt) D pct p) (num 0) = false := by
  rcases le_or_lt p.distance D with h1 | h1
  · obtain ⟨q, hq, hb⟩ := clearanceAt_num (e + hgt) (e + hgt) D pct p hD hpct h0 h1
    rw [hq, hel]
    simp only [jgt_def, jlt_num_num]
    apply decide_eq_false
    intro hcontra
    nlinarith
  · rw [clearanceAt_nan _ _ _ _ p hD h1]
    simp

theorem foldl_clearanceStep_preserved (txE rxE D pct : ℝ) :
    ∀ (pts : List Sample) (st : RFUtils.ClearanceState),
      (∀ p ∈ pts, jgt (RFUtils.clearanceAt txE rxE D pct p) (num 0) = false) →
      ((pts.foldl (RFUtils.clearanceStep txE rxE D pct) st).hasAdequateClearance =
          st.hasAdequateClearance ∧
        (pts.foldl (RFUtils.clearanceStep txE rxE D pct) st).obstructions =
          st.obstructions)
  | [], _, _ => ⟨rfl, rfl⟩
  | p :: pts, st, hall => by
      rw [List.foldl_cons]
      have hstep : RFUtils.clearanceStep txE rxE D pct st p =
          { st with minClearance := jmin st.minClearance (jabs (RFUtils.clearanceAt txE rxE D pct p)) } := by
        unfold RFUtils.clearanceStep
        have hc := hall p (List.mem_cons_self p pts)
        rw [jgt_def] at hc
        simp [hc]
      rw [hstep]
      exact foldl_clearanceStep_preserved txE rxE D pct pts _
        (fun q hq => hall q (List.mem_cons_of_mem p hq))

/-- Claim C1: for a flat terrain profile of length at least 2 (all
elevations equal), first sample at distance 0, monotonically non-decreasing
distances, positive total distance and equal positive antenna heights at
both ends, `analyzeFresnelClearance` reports adequate clearance and an
empty obstruction list. -/
theorem c1_flat_profile_has_adequate_clearance (profile : List Sample) (e hgt D : ℝ)
    (hlen : 2 ≤ profile.length)
    (hflat : ∀ p ∈ profile, p.elevation = e)
    (hfirst : profile.headI.distance = 0)
    (hmono : profile.Pairwise (fun a b => a.distance ≤ b.distance))
    (hD : 0 < D) (hh : 0 < hgt) :
    (RFUtils.analyzeFresnelClearance profile hgt hgt D).hasAdequateClearance = true ∧
    (RFUtils.analyzeFresnelClearance profile hgt hgt D).obstructions = [] := by
  obtain ⟨a, rest, rfl⟩ : ∃ a rest, profile = a :: rest := by
    cases profile with
    | nil => simp at hlen
    | cons a rest => exact ⟨a, rest, rfl⟩
  have ha_e : a.elevation = e := hflat a (List.mem_cons_self a rest)
  have ha_d : a.distance = 0 := hfirst
  have hlast_e : ((a :: rest).getLastD default).elevation = e := by
    apply hflat
    show (a :: rest).getLastD default ∈ a :: rest
    rw [List.getLastD_cons]
    exact List.getLastD_mem_cons rest a
  have hrest_nonneg : ∀ p ∈ rest, 0 ≤ p.distance := by
    intro p hp
    have := (List.pairwise_cons.mp hmono).1 p hp
    linarith [ha_d ▸ this]
  unfold RFUtils.analyzeFresnelClearance
  rw [if_neg (by simp at hlen ⊢; omega)]
  simp only []
  have hall : ∀ p ∈ (List.drop 1 (a :: rest)).dropLast,
      jgt (RFUtils.clearanceAt (a.elevation + hgt)
        (((a :: rest).getLastD default).elevation + hgt) D
        (RFUtils.getRequiredFresnelClearance D) p) (num 0) = false := by
    intro p hp
    have hp_rest : p ∈ rest := by
      simp only [List.drop_one, List.tail_cons] at hp
      exact (List.dropLast_sublist rest).subset hp
    rw [ha_e, hlast_e]
    exact clearance_flat_nonpos e hgt D _ p hD hh
      (RFUtils.getRequiredFresnelClearance_pos D).le (hrest_nonneg p hp_rest)
      (hflat p (List.mem_cons_of_mem a hp_rest))
  have := foldl_clearanceStep_preserved (a.elevation + hgt)
    (((a :: rest).getLastD default).elevation + hgt) D
    (RFUtils.getRequiredFresnelClearance D)
    ((List.drop 1 (a :: rest)).dropLast) ⟨true, inf true, []⟩ hall
  exact this

/-- Witness for claim C1: a flat two-sample profile at elevation 100 m,
10 km long, with 10 m antennas at both ends. -/
theorem c1_witness :
    2 ≤ ([⟨0, 100⟩, ⟨10, 100⟩] : List Sample).length ∧
      (RFUtils.analyzeFresnelClearance [⟨0, 100⟩, ⟨10, 100⟩] 10 10 10).hasAdequateClearance =
        true ∧
      (RFUtils.analyzeFresnelClearance [⟨0, 100⟩, ⟨10, 100⟩] 10 10 10).obstructions = [] :=
  ⟨by norm_num,
    (c1_flat_profile_has_adequate_clearance [⟨0, 100⟩, ⟨10, 100⟩] 100 10 10
      (by norm_num)
      (by intro p hp; fin_cases hp <;> rfl)
      rfl
      (by norm_num [List.pairwise_cons])
      (by norm_num) (by norm_num)).1,
    (c1_flat_profile_has_adequate_clearance [⟨0, 100⟩, ⟨10, 100⟩] 100 10 10
      (by norm_num)
      (by intro p hp; fin_cases hp <;> rfl)
      rfl
      (by norm_num [List.pairwise_cons])
      (by norm_num) (by norm_num)).2⟩

theorem clearanceStep_minClearance (txE rxE D pct : ℝ) (st : RFUtils.ClearanceState)
    (p : Sample) :
    (RFUtils.clearanceStep txE rxE D pct st p).minClearance =
      jmin st.minClearance (jabs (RFUtils.clearanceAt txE rxE D pct p)) := by
  unfold RFUtils.clearanceStep
  simp only []
  split <;> rfl

theorem foldl_clearanceStep_minClearance (txE rxE D pct : ℝ) :
    ∀ (pts : List Sample) (st : RFUtils.ClearanceState),
      (pts.foldl (RFUtils.clearanceStep txE rxE D pct) st).minClearance =
        (pts.map (fun p => jabs (RFUtils.clearanceAt txE rxE D pct p))).foldl jmin
          st.minClearance
  | [], _ => rfl
  | p :: pts, st => by
      rw [List.foldl_cons, List.map_cons, List.foldl_cons,
        foldl_clearanceStep_minClearance txE rxE D pct pts _,
        clearanceStep_minClearance]

theorem foldl_jmin_nonneg :
    ∀ (xs : List JSVal) (acc : JSVal),
      (acc = inf true ∨ ∃ x : ℝ, acc = num x ∧ 0 ≤ x) →
      (∀ v ∈ xs, ∃ x : ℝ, v = num x ∧ 0 ≤ x) →
      (xs.foldl jmin acc = inf true ∨ ∃ x : ℝ, xs.foldl jmin acc = num x ∧ 0 ≤ x)
  | [], _, hacc, _ => hacc
  | v :: xs, acc, hacc, hall => by
      rw [List.foldl_cons]
      apply foldl_jmin_nonneg xs _ _ (fun w hw => hall w (List.mem_cons_of_mem v hw))
      obtain ⟨y, hy, hy0⟩ := hall v (List.mem_cons_self v xs)
      rcases hacc with h | ⟨x, hx, hx0⟩
      · exact Or.inr ⟨y, by rw [h, hy, jmin_posinf_num], hy0⟩
      · exact Or.inr ⟨min x y, by rw [hx, hy, jmin_num_num], le_min hx0 hy0⟩

/-- Claim C9, counterexample: with `totalDistance = 0` (and a profile whose
samples all sit at distance 0), the interior computation divides by zero,
the clearance is NaN, `Math.abs(NaN)` is NaN and `Math.min(Infinity, NaN)`
is NaN, so `minClearance` is NaN - not a non-negative real (in JS even
`minClearance >= 0` is false). -/
theorem c9_counterexample_min_clearance_nan :
    (RFUtils.analyzeFresnelClearance [⟨0, 0⟩, ⟨0, 0⟩, ⟨0, 0⟩] 0 0 0).minClearance =
      JSVal.nan ∧
    jge (RFUtils.analyzeFresnelClearance [⟨0, 0⟩, ⟨0, 0⟩, ⟨0, 0⟩] 0 0 0).minClearance
      (num 0) = false := by
  have hclear : RFUtils.clearanceAt ((0:ℝ) + 0) ((0:ℝ) + 0) 0
      (RFUtils.getRequiredFresnelClearance 0) ⟨0, 0⟩ = JSVal.nan := by
    unfold RFUtils.clearanceAt RFUtils.requiredHeightAt RFUtils.calculateEarthCurvature
      RFUtils.calculateFresnelZoneRadius
    norm_num [jdiv]
  have hmain : (RFUtils.analyzeFresnelClearance [⟨0, 0⟩, ⟨0, 0⟩, ⟨0, 0⟩] 0 0 0).minClearance
      = JSVal.nan := by
    unfold RFUtils.analyzeFresnelClearance
    rw [if_neg (by norm_num)]
    simp only []
    rw [show (List.drop 1 [(⟨0, 0⟩ : Sample), ⟨0, 0⟩, ⟨0, 0⟩]).dropLast = [⟨0, 0⟩] from rfl]
    rw [List.foldl_cons, List.foldl_nil, clearanceStep_minClearance]
    rw [show ([(⟨0, 0⟩ : Sample), ⟨0, 0⟩, ⟨0, 0⟩].headI).elevation = (0:ℝ) from rfl,
      show (([(⟨0, 0⟩ : Sample), ⟨0, 0⟩, ⟨0, 0⟩].getLastD default)).elevation = (0:ℝ) from rfl]
    rw [hclear]
    rfl
  exact ⟨hmain, by rw [hmain]; rfl⟩

theorem clearanceStep_hasAdequate (txE rxE D pct : ℝ) (st : RFUtils.ClearanceState)
    (p : Sample) :
    (RFUtils.clearanceStep txE rxE D pct st p).hasAdequateClearance =
      (if jgt (RFUtils.clearanceAt txE rxE D pct p) (num 0) = true then false
       else st.hasAdequateClearance) := by
  unfold RFUtils.clearanceStep
  simp only []
  split <;> rfl

/-- Claim C9, amended: provided the total distance is positive and every
sample's distance lies in [0, totalDistance], the `minClearance` field is
exactly the JS fold `Math.min` over the interior samples of
`Math.abs(terrainHeight - requiredHeight)` starting from `Infinity`
(`Infinity` when there are no interior samples), hence it is a non-negative
real or `Infinity`; and the sign of the worst clearance is not recoverable
from it: two profiles, one obstructed and one clear, produce the same
`minClearance`.  Without the distance hypotheses the field can be NaN (see
the counterexample). -/
theorem c9_amended_min_clearance (profile : List Sample) (txH rxH D : ℝ)
    (hlen : 2 ≤ profile.length) (hD : 0 < D)
    (hrange : ∀ p ∈ profile, 0 ≤ p.distance ∧ p.distance ≤ D) :
    ((RFUtils.analyzeFresnelClearance profile txH rxH D).minClearance =
      ((profile.drop 1).dropLast.map (fun p =>
        jabs (RFUtils.clearanceAt (profile.headI.elevation + txH)
          ((profile.getLastD default).elevation + rxH) D
          (RFUtils.getRequiredFresnelClearance D) p))).foldl jmin (inf true)) ∧
    ((RFUtils.analyzeFresnelClearance profile txH rxH D).minClearance = inf true ∨
      ∃ x : ℝ, (RFUtils.analyzeFresnelClearance profile txH rxH D).minClearance = num x ∧
        0 ≤ x) ∧
    (∃ P1 P2 : List Sample,
      (RFUtils.analyzeFresnelClearance P1 0 0 1).minClearance =
        (RFUtils.analyzeFresnelClearance P2 0 0 1).minClearance ∧
      (RFUtils.analyzeFresnelClearance P1 0 0 1).hasAdequateClearance = false ∧
      (RFUtils.analyzeFresnelClearance P2 0 0 1).hasAdequateClearance = true) := by
  have hifneg : ¬ profile.length < 2 := by omega
  have hA : (RFUtils.analyzeFresnelClearance profile txH rxH D).minClearance =
      ((profile.drop 1).dropLast.map (fun p =>
        jabs (RFUtils.clearanceAt (profile.headI.elevation + txH)
          ((profile.getLastD default).elevation + rxH) D
          (RFUtils.getRequiredFresnelClearance D) p))).foldl jmin (inf true) := by
    unfold RFUtils.analyzeFresnelClearance
    rw [if_neg hifneg]
    simp only []
    exact foldl_clearanceStep_minClearance _ _ _ _ _ _
  refine ⟨hA, ?_, ?_⟩
  · rw [hA]
    apply foldl_jmin_nonneg _ _ (Or.inl rfl)
    intro v hv
    obtain ⟨p, hp, rfl⟩ := List.mem_map.mp hv
    have hp_profile : p ∈ profile :=
      ((List.dropLast_sublist _).trans (List.drop_sublist 1 profile)).subset hp
    obtain ⟨h0, h1⟩ := hrange p hp_profile
    obtain ⟨q, hq, -⟩ := clearanceAt_num (profile.headI.elevation + txH)
      ((profile.getLastD default).elevation + rxH) D
      (RFUtils.getRequiredFresnelClearance D) p hD
      (RFUtils.getRequiredFresnelClearance_pos D).le h0 h1
    exact ⟨|p.elevation - q|, by rw [hq, jabs_num], abs_nonneg _⟩
  · obtain ⟨q, hq, -⟩ := requiredHeightAt_num ((0:ℝ) + 0) ((0:ℝ) + 0) 1
      (RFUtils.getRequiredFresnelClearance 1) ⟨0.5, 0⟩ one_pos
      (RFUtils.getRequiredFresnelClearance_pos 1).le (by norm_num) (by norm_num)
    have hqe : ∀ e : ℝ, RFUtils.requiredHeightAt ((0:ℝ) + 0) ((0:ℝ) + 0) 1
        (RFUtils.getRequiredFresnelClearance 1) ⟨0.5, e⟩ = num q := fun _ => hq
    have hca : ∀ e : ℝ, RFUtils.clearanceAt ((0:ℝ) + 0) ((0:ℝ) + 0) 1
        (RFUtils.getRequiredFresnelClearance 1) ⟨0.5, e⟩ = num (e - q) := by
      intro e
      unfold RFUtils.clearanceAt
      rw [hqe e, jsub_num_num]
    have heval : ∀ e : ℝ,
        (RFUtils.analyzeFresnelClearance [⟨0, 0⟩, ⟨0.5, e⟩, ⟨1, 0⟩] 0 0 1).minClearance =
          num |e - q| ∧
        (RFUtils.analyzeFresnelClearance [⟨0, 0⟩, ⟨0.5, e⟩, ⟨1, 0⟩] 0 0
            1).hasAdequateClearance =
          !(jgt (num (e - q)) (num 0)) := by
      intro e
      have hdrop : (List.drop 1 [(⟨0, 0⟩ : Sample), ⟨0.5, e⟩, ⟨1, 0⟩]).dropLast =
          [⟨0.5, e⟩] := rfl
      have hhead : ([(⟨0, 0⟩ : Sample), ⟨0.5, e⟩, ⟨1, 0⟩].headI).elevation = (0:ℝ) := rfl
      have hlast : (([(⟨0, 0⟩ : Sample), ⟨0.5, e⟩, ⟨1, 0⟩].getLastD default)).elevation =
          (0:ℝ) := rfl
      constructor
      · unfold RFUtils.analyzeFresnelClearance
        rw [if_neg (by norm_num)]
        simp only []
        rw [hdrop, List.foldl_cons, List.foldl_nil, clearanceStep_minClearance,
          hhead, hlast, hca e, jabs_num, jmin_posinf_num]
      · unfold RFUtils.analyzeFresnelClearance
        rw [if_neg (by norm_num)]
        simp only []
        rw [hdrop, List.foldl_cons, List.foldl_nil, clearanceStep_hasAdequate,
          hhead, hlast, hca e]
        cases hg : jgt (num (e - q)) (num 0) <;> simp [hg]
    refine ⟨[⟨0, 0⟩, ⟨0.5, q + 1⟩, ⟨1, 0⟩], [⟨0, 0⟩, ⟨0.5, q - 1⟩, ⟨1, 0⟩], ?_, ?_, ?_⟩
    · rw [(heval (q + 1)).1, (heval (q - 1)).1]
      congr 1
      rw [show q + 1 - q = (1:ℝ) by ring, show q - 1 - q = (-1:ℝ) by ring]
      norm_num
    · rw [(heval (q + 1)).2, show q + 1 - q = (1:ℝ) by ring]
      norm_num [jgt]
    · rw [(heval (q - 1)).2, show q - 1 - q = (-1:ℝ) by ring]
      norm_num [jgt]

/-- Witness for the amended claim C9 at a flat two-sample profile, 1 km
long (no interior samples: `minClearance` stays `Infinity`). -/
theorem c9_witness :
    2 ≤ ([⟨0, 100⟩, ⟨1, 100⟩] : List Sample).length ∧ (0:ℝ) < 1 ∧
      ((RFUtils.analyzeFresnelClearance [⟨0, 100⟩, ⟨1, 100⟩] 10 10 1).minClearance =
          inf true ∨
        ∃ x : ℝ, (RFUtils.analyzeFresnelClearance [⟨0, 100⟩, ⟨1, 100⟩] 10 10
            1).minClearance = num x ∧ 0 ≤ x) :=
  ⟨by norm_num, by norm_num,
    (c9_amended_min_clearance [⟨0, 100⟩, ⟨1, 100⟩] 10 10 1 (by norm_num) (by norm_num)
      (by intro p hp; fin_cases hp <;> norm_num)).2.1⟩

theorem marchLoop_fst (oracle : ℝ → CoverageApi.FetchOutcome)
    (txLat txLng power bearing maxRange : ℝ) :
    ∀ (fuel : ℕ) (distance lastGood : ℝ) (pt : GeoPoint),
      lastGood ≤ maxRange ∨ lastGood = 0 →
      ((CoverageApi.marchLoop oracle txLat txLng power bearing maxRange distance lastGood
          pt fuel).1 ≤ maxRange ∨
        (CoverageApi.marchLoop oracle txLat txLng power bearing maxRange distance lastGood
          pt fuel).1 = 0)
  | 0, _, _, _, h => h
  | fuel + 1, distance, lastGood, pt, h => by
      rw [CoverageApi.marchLoop]
      by_cases hd : distance ≤ maxRange
      · rw [if_pos hd]
        cases horacle : oracle distance with
        | fetched resp =>
            simp only []
            split <;> split <;>
              first
                | exact marchLoop_fst oracle txLat txLng power bearing maxRange fuel _ _ _
                    (Or.inl hd)
                | exact h
        | failed =>
            simp only []
            split <;> split <;>
              first
                | exact marchLoop_fst oracle txLat txLng power bearing maxRange fuel _ _ _
                    (Or.inl hd)
                | exact h
      · rw [if_neg hd]
        exact h

theorem coverageInDirection_le (oracle : ℝ → CoverageApi.FetchOutcome)
    (txLat txLng power bearing maxRange : ℝ) (fuel : ℕ) :
    (CoverageApi.calculateCoverageInDirection oracle txLat txLng power bearing maxRange
        fuel).coverageDistance ≤ maxRange ∨
    (CoverageApi.calculateCoverageInDirection oracle txLat txLng power bearing maxRange
        fuel).coverageDistance = 0 := by
  unfold CoverageApi.calculateCoverageInDirection
  exact marchLoop_fst oracle txLat txLng power bearing maxRange fuel 0.5 0 ⟨txLat, txLng⟩
    (Or.inr rfl)

theorem fallback_angles_len : (CoverageApi.anglesLoop 30 0 100).length = 12 := by
  norm_num [CoverageApi.anglesLoop]

theorem logb_ten_thousand : Real.logb 10 ((1:ℝ) * 1000) = 3 := by
  rw [one_mul, show (1000:ℝ) = 10 ^ (3:ℕ) by norm_num]
  unfold Real.logb
  rw [Real.log_pow]
  push_cast
  rw [mul_div_assoc, div_self (Real.log_pos (by norm_num)).ne', mul_one]

theorem estimateCoverageRadius_one_rolling_gt :
    jlt (num 20) (jdiv (RFCalculator.estimateCoverageRadius 1
      RFCalculator.TerrainKind.rolling) (num 1000)) = true := by
  unfold RFCalculator.estimateCoverageRadius
  simp only []
  rw [jlog10_num_of_pos (by norm_num), logb_ten_thousand]
  simp only [jmul_num_num, jadd_num_num, jsub_num_num]
  rw [jdiv_num_num_of_ne _ (by norm_num : (20:ℝ) ≠ 0)]
  rw [show jpow10 (num ((10 * 3 + 2 * RFCalculator.antennaGain -
      RFCalculator.receiverSensitivity - 20) / 20)) =
    num ((10:ℝ) ^ (((10 * 3 + 2 * RFCalculator.antennaGain -
      RFCalculator.receiverSensitivity - 20) / 20 : ℝ))) from rfl]
  simp only [jmul_num_num]
  rw [jdiv_num_num_of_ne _ (by positivity : (4 * Real.pi) ≠ 0)]
  simp only [jmul_num_num]
  rw [jdiv_num_num_of_ne _ (by norm_num : (1000:ℝ) ≠ 0)]
  simp only [jlt_num_num]
  apply decide_eq_true
  have hexp : ((10 * 3 + 2 * RFCalculator.antennaGain -
      RFCalculator.receiverSensitivity - 20) / 20 : ℝ) = 157 / 20 := by
    norm_num [RFCalculator.antennaGain, RFCalculator.receiverSensitivity]
  rw [hexp]
  have hP : (10000000 : ℝ) ≤ (10:ℝ) ^ ((157:ℝ) / 20) := by
    rw [show (10000000:ℝ) = (10:ℝ) ^ ((7:ℕ):ℝ) by rw [Real.rpow_natCast]; norm_num]
    exact Real.rpow_le_rpow_left_iff (by norm_num : (1:ℝ) < 10) |>.mpr (by norm_num)
  have hwl : (0.32:ℝ) < RFCalculator.wavelength := by
    norm_num [RFCalculator.wavelength, RFCalculator.cLight, RFCalculator.frequency]
  have hpi := Real.pi_lt_315
  have hpi0 := Real.pi_pos
  have hP0 : (0:ℝ) < (10:ℝ) ^ ((157:ℝ) / 20) := by positivity
  rw [lt_div_iff (by norm_num : (0:ℝ) < 1000)]
  rw [show RFCalculator.wavelength * (10:ℝ) ^ ((157:ℝ) / 20) / (4 * Real.pi) *
      RFCalculator.terrainFactor RFCalculator.TerrainKind.rolling =
    RFCalculator.wavelength * (10:ℝ) ^ ((157:ℝ) / 20) * 0.7 / (4 * Real.pi) from by
      rw [show RFCalculator.terrainFactor RFCalculator.TerrainKind.rolling = 0.7 from rfl]
      ring]
  rw [lt_div_iff (by positivity : (0:ℝ) < 4 * Real.pi)]
  have hlp : (0.32:ℝ) * 10000000 ≤ RFCalculator.wavelength * (10:ℝ) ^ ((157:ℝ) / 20) :=
    mul_le_mul hwl.le hP (by norm_num) (by linarith)
  nlinarith

/-- Claim C5, amended: the returned polygon always has at least 3 points
(the under-3 fallback appends a 12-point circle); every point produced by
ray-marching - including the per-step provider-failure fallback - has
distance at most `maxRange`; but the fallback-circle points have the fixed
power-dependent radius 10 km (at      1 W and above, else 6 km) regardless of
`maxRange`, and the part_004 timeout fill-in `estimateCoverageRadius(1,
'rolling') / 1000` exceeds 20 km, the largest clamped range of that
variant, so both fallback families can exceed the configured maximum. -/
theorem c5_amended_polygon_invariants (oracle : ℝ → ℝ → CoverageApi.FetchOutcome)
    (lat lng power resolution maxRange : ℝ) (fuel : ℕ) :
    3 ≤ (CoverageApi.generateCoveragePolygon oracle lat lng power resolution maxRange
        fuel).polygon.length ∧
    (∀ p ∈ (CoverageApi.generateCoveragePolygon oracle lat lng power resolution maxRange
        fuel).polygon,
      p.distance ≤ maxRange ∨ p.distance = (if 1 ≤ power then (10:ℝ) else 6)) ∧
    jlt (num 20) (jdiv (RFCalculator.estimateCoverageRadius 1
      RFCalculator.TerrainKind.rolling) (num 1000)) = true := by
  have hpts : ∀ p ∈ ((CoverageApi.coverageAngles resolution).zip
      ((CoverageApi.coverageAngles resolution).map fun angle =>
        CoverageApi.calculateCoverageInDirection (oracle angle) lat lng power angle maxRange
          fuel)).filterMap (fun ar =>
        if ar.2.coverageDistance > 0 then
          some (⟨ar.2.lat, ar.2.lng, ar.2.coverageDistance, ar.1, ar.2.linkMargin⟩ :
            CoverageApi.CoveragePoint)
        else none),
      p.distance ≤ maxRange := by
    intro p hp
    obtain ⟨ar, har, hf⟩ := List.mem_filterMap.mp hp
    by_cases hc : ar.2.coverageDistance > 0
    · rw [if_pos hc] at hf
      obtain rfl := Option.some.inj hf
      have h2 := (List.of_mem_zip har).2
      obtain ⟨angle, -, heq⟩ := List.mem_map.mp h2
      rcases coverageInDirection_le (oracle angle) lat lng power angle maxRange fuel with
        hle | h0
      · rw [heq] at hle
        exact hle
      · rw [heq] at h0
        exact absurd (h0 ▸ hc) (by norm_num)
    · rw [if_neg hc] at hf
      cases hf
  unfold CoverageApi.generateCoveragePolygon
  simp only []
  refine ⟨?_, ?_, estimateCoverageRadius_one_rolling_gt⟩
  · split
    · rw [List.length_append, List.length_map, fallback_angles_len]
      omega
    · rename_i hc
      omega
  · intro p hp
    split at hp
    · rcases List.mem_append.mp hp with h | h
      · exact Or.inl (hpts p h)
      · obtain ⟨angle, -, rfl⟩ := List.mem_map.mp h
        exact Or.inr rfl
    · exact Or.inl (hpts p hp)

/-- Claim C5, counterexample: a valid 1 W request (origin coordinates,
resolution 15 within the 5..90 validated range) with a configured
`maxRange` of 0.2 km.  The 0.5 km marching step immediately exceeds
`maxRange`, every ray reports distance 0 and is filtered out, and the
fewer-than-3 fallback appends a circle of fixed radius 10 km - so the
returned polygon contains points whose distance exceeds the configured
`maxRange` (`10 > 0.2`). -/
theorem c5_counterexample_fallback_circle_exceeds_max_range :
    ∃ p ∈ (CoverageApi.generateCoveragePolygon
        (fun _ _ => CoverageApi.FetchOutcome.failed) 0 0 1 15 0.2 100).polygon,
      (0.2:ℝ) < p.distance := by
  have hdir : ∀ bearing : ℝ,
      CoverageApi.calculateCoverageInDirection
        ((fun _ _ => CoverageApi.FetchOutcome.failed) bearing) 0 0 1 bearing 0.2 100 =
        ⟨0, 0, 0, 10⟩ := by
    intro bearing
    unfold CoverageApi.calculateCoverageInDirection
    rw [show (100:ℕ) = 99 + 1 from rfl, CoverageApi.marchLoop]
    rw [if_neg (by norm_num : ¬ (0.5:ℝ) ≤ 0.2)]
  have hfm : ((CoverageApi.coverageAngles 15).zip
      ((CoverageApi.coverageAngles 15).map fun angle =>
        CoverageApi.calculateCoverageInDirection
          ((fun _ _ => CoverageApi.FetchOutcome.failed) angle) 0 0 1 angle 0.2
          100)).filterMap (fun ar =>
        if ar.2.coverageDistance > 0 then
          some (⟨ar.2.lat, ar.2.lng, ar.2.coverageDistance, ar.1, ar.2.linkMargin⟩ :
            CoverageApi.CoveragePoint)
        else none) = [] := by
    rw [List.filterMap_eq_nil]
    intro ar har
    have h2 := (List.of_mem_zip har).2
    obtain ⟨angle, -, heq⟩ := List.mem_map.mp h2
    rw [← heq, hdir angle]
    norm_num
  have hmem0 : (0:ℝ) ∈ CoverageApi.anglesLoop 30 0 100 := by
    rw [show (100:ℕ) = 99 + 1 from rfl, CoverageApi.anglesLoop,
      if_pos (by norm_num : (0:ℝ) < 360)]
    exact List.mem_cons_self _ _
  unfold CoverageApi.generateCoveragePolygon
  simp only []
  rw [hfm]
  rw [if_pos (by norm_num : ([] : List CoverageApi.CoveragePoint).length < 3),
    List.nil_append]
  refine ⟨_, List.mem_map_of_mem _ hmem0, ?_⟩
  norm_num

/-- Witness for the amended claim C5: the polygon of a concrete request has
at least 3 points. -/
theorem c5_witness :
    3 ≤ (CoverageApi.generateCoveragePolygon
        (fun _ _ => CoverageApi.FetchOutcome.failed) 0 0 1 15 30 100).polygon.length :=
  (c5_amended_polygon_invariants (fun _ _ => CoverageApi.FetchOutcome.failed)
    0 0 1 15 30 100).1
